import Mathlib

/-!
# Image assets of the H1 zone tool

A shallow embedding of `src/zonetool/zonetool/h1/assets/gfximage.cpp`
(acquisition chain `gfx_image::init`, the blob reader `gfx_image::parse`,
the zone writer `gfx_image::write`, the export `dump_streamed_image`) and of
`src/zonetool/component/h1/zonetool.cpp` (asset pools `reallocate_asset_pool`
and `patch_asset_loading`, the archive listing of `batchdumpzonewalkarchive`)
together with the collaborators they call.  Collaborators whose code is not
part of the sources (`zone_buffer`, `assetmanager::reader`, `zone_memory`, the
file system, the texture codec, the IWI decoder, the block codec, the game's
tables, enum constants) are either fields of the world structures (`Env`,
`DumpEnv`, `PoolEnv`, `ArchiveEnv`) or definitions marked "Modelled from the
spec".

Conventions: a C pointer field is its raw address (`0` is `nullptr`); the
objects such a field designates are kept next to the struct in `Image`;
a function that can return `nullptr` returns `Option`; a read error raised
by the reader is the `Except` error.  Console logging is not modelled.
Strings are sequences of one-byte characters without embedded NUL.
-/

namespace zonetool.h1

/-! ## Data model -/

/-- The C struct `GfxImage`, restricted to the fields the sources touch.
`name` and `pixelData` are raw pointer values. -/
structure GfxImage where
  name : Nat
  imageFormat : Nat
  mapType : Nat
  semantic : Nat
  category : Nat
  flags : Nat
  dataLen1 : Int
  dataLen2 : Int
  width : Nat
  height : Nat
  depth : Nat
  numElements : Nat
  levelCount : Nat
  streamed : Bool
  pixelData : Nat
  streams : List (Nat × Nat)
deriving DecidableEq, Repr

/-- A zero-filled `GfxImage`, as handed out by `zone_memory::allocate`. -/
def GfxImage.zero : GfxImage :=
  { name := 0, imageFormat := 0, mapType := 0, semantic := 0, category := 0, flags := 0,
    dataLen1 := 0, dataLen2 := 0, width := 0, height := 0, depth := 0, numElements := 0,
    levelCount := 0, streamed := false, pixelData := 0, streams := [] }

/-- An image resident in memory: the struct, the C string found at `hdr.name`
and the bytes found at `hdr.pixelData` (byte `i` of the list is the byte at
address `hdr.pixelData + i`). -/
structure Image where
  hdr : GfxImage
  nameStr : String
  pixels : List Nat
deriving DecidableEq, Repr

/-- The bytes `count` addresses long that start at a pointer whose known
pointee is `src`; addresses past the known pointee read as `0`. -/
def readBytes (src : List Nat) (count : Nat) : List Nat :=
  (List.range count).map (fun i => src.getD i 0)

/-- Conversion of a C `int` to `size_t` (64 bit). -/
def toSizeT (i : Int) : Nat := (i % (2 ^ 64 : Int)).toNat

/-- Conversion `static_cast<int>` of a `size_t` (two's complement, 32 bit). -/
def toInt32 (n : Nat) : Int :=
  if n % 2 ^ 32 < 2 ^ 31 then ((n % 2 ^ 32 : Nat) : Int) else ((n % 2 ^ 32 : Nat) : Int) - 2 ^ 32

/-- Stream tags of the zone buffer (an enum declared in a header that is not
part of the sources); only the two tags named in `gfximage.cpp` are
distinguished. -/
inductive XFILE_BLOCK where
  | XFILE_BLOCK_TEMP
  | XFILE_BLOCK_VIRTUAL
  | XFILE_BLOCK_OTHER (n : Nat)
deriving DecidableEq, Repr

open XFILE_BLOCK

/-- Modelled from the spec: the units the Stream Writer emits and the Stream
Reader consumes (§4.1, §4.2; neither is part of the sources): a fixed-size
struct, a nul-terminated string, a counted byte array, or a run of alignment
padding. -/
inductive Item where
  | struct (g : GfxImage)
  | str (s : String)
  | bytes (b : List Nat)
  | pad (n : Nat)
deriving DecidableEq, Repr

/-- The kind of an item, forgetting its payload. -/
inductive Kind where
  | struct
  | str
  | bytes
  | pad
deriving DecidableEq, Repr

/-- Kind of an item. -/
def Item.kind : Item → Kind
  | Item.struct _ => Kind.struct
  | Item.str _ => Kind.str
  | Item.bytes _ => Kind.bytes
  | Item.pad _ => Kind.pad

/-- Whether an item is alignment padding. -/
def Item.isPad : Item → Bool
  | Item.pad _ => true
  | _ => false

/-- Size in bytes of an item; `ssz` is `sizeof(GfxImage)`. -/
def Item.size (ssz : Nat) : Item → Nat
  | Item.struct _ => ssz
  | Item.str s => s.length + 1
  | Item.bytes b => b.length
  | Item.pad n => n

/-- Modelled from the spec: the operations of the Stream Writer (§4.1) as calls
received by a zone buffer. -/
inductive Call where
  | write
  | push_stream (s : XFILE_BLOCK)
  | pop_stream (left : XFILE_BLOCK)
  | write_str (s : String)
  | align (k : Nat)
  | write_stream (count : Nat)
  | clear_pointer
  | write_streamfile (h : Nat)
deriving DecidableEq, Repr

/-- What the texture codec hands back for a decoded file (`DirectX::ScratchImage`):
the metadata, the memory at `GetImages()->pixels` and `GetPixelsSize()`. -/
structure ScratchImage where
  format : Nat
  dimension : Nat
  width : Nat
  height : Nat
  depth : Nat
  arraySize : Nat
  mipLevels : Nat
  isCubemap : Bool
  pixels : List Nat
  pixelsSize : Nat
deriving DecidableEq, Repr

/-- The record filled in by `::iwi::parse_iwi` (its `GfxImage`), with the
objects its two pointers designate. -/
structure IwiImage where
  name : Nat
  nameStr : String
  imageFormat : Nat
  mapType : Nat
  dataLen : Int
  width : Nat
  height : Nat
  depth : Nat
  numElements : Nat
  levelCount : Nat
  pixelData : Nat
  pixels : List Nat
deriving DecidableEq, Repr

/-- Modelled from the spec: `zone_memory`, the Arena of §2 ("bump allocation,
string duplication, no individual deallocation"); its code is not part of the
sources.  `next` is the address the next allocation returns. -/
structure zone_memory where
  next : Nat
deriving DecidableEq, Repr

/-- Modelled from the spec: `zone_memory::allocate` (missing from the sources)
as bump allocation of `bytes` bytes: returns the address and the advanced arena. -/
def zone_memory.allocate (mem : zone_memory) (bytes : Nat) : Nat × zone_memory :=
  (mem.next, { next := mem.next + bytes })

/-- Modelled from the spec: `zone_memory::duplicate_string` (missing from the
sources): a nul-terminated copy placed in the arena. -/
def zone_memory.duplicate_string (mem : zone_memory) (s : String) : Nat × zone_memory :=
  mem.allocate (s.length + 1)

/-- The world outside `gfximage.cpp`: constants declared in headers that are
not part of the sources (`sizeof(GfxImage)`, enum values, the address of the
static default pixel `def`), the base-class query `referenced()`, and the
external collaborators (file system, blob opening, texture codec, IWI decoder). -/
structure Env where
  sizeof_GfxImage : Nat
  IMAGE_FLAG_NOMIPMAPS : Nat
  MAPTYPE_2D : Nat
  MAPTYPE_CUBE : Nat
  MAPTYPE_ARRAY : Nat
  TS_2D : Nat
  TS_COLOR_MAP : Nat
  IMG_CATEGORY_LOAD_FROM_FILE : Nat
  IMG_CATEGORY_AUTO_GENERATED : Nat
  DXGI_FORMAT_R8G8B8A8_UNORM : Nat
  ASSET_TYPE_IMAGE : Int
  def_addr : Nat
  referenced : String → Bool
  get_file_path : String → String
  fs_file_exists : String → Bool
  io_file_exists : String → Bool
  reader_open : String → Option (List Item)
  LoadFromDDSFile : String → Option ScratchImage
  LoadFromTGAFile : String → Option ScratchImage
  LoadFromWICFile : String → Option ScratchImage
  parse_iwi : String → zone_memory → Option IwiImage × zone_memory

/-! ## The zone buffer (Stream Writer) -/

/-- Modelled from the spec: part of the `zone_buffer` model (its code is not in
the sources): total size in bytes of the entries of `d` that landed in stream
`s`, "the padding bytes ... count toward offsets". -/
def streamSize (ssz : Nat) (s : XFILE_BLOCK) (d : List (XFILE_BLOCK × Item)) : Nat :=
  ((d.filter (fun e => decide (e.1 = s))).map (fun e => e.2.size ssz)).sum

/-- Modelled from the spec: `zone_buffer`, the Stream Writer of §4.1, whose
code is not part of the sources.  `cur` is the active stream, `saved` the
streams suspended by `push_stream` (innermost first), `data` the items written
so far, oldest first, each with the stream it landed in, `files` the
stream-file reference records, `trace` the calls received. -/
structure zone_buffer where
  cur : XFILE_BLOCK
  saved : List XFILE_BLOCK
  data : List (XFILE_BLOCK × Item)
  files : List Nat
  trace : List Call
deriving DecidableEq, Repr

namespace zone_buffer

/-- Modelled from the spec: part of the `zone_buffer` model: number of bytes
written so far to stream `s` (padding included). -/
def offset (ssz : Nat) (b : zone_buffer) (s : XFILE_BLOCK) : Nat :=
  streamSize ssz s b.data

/-- Modelled from the spec: part of the `zone_buffer` model: a write lands in
the active stream, after what that stream already holds. -/
def emit (b : zone_buffer) (it : Item) : zone_buffer :=
  { b with data := b.data ++ [(b.cur, it)] }

/-- Modelled from the spec: part of the `zone_buffer` model: the buffer keeps
the list of calls it received. -/
def note (b : zone_buffer) (c : Call) : zone_buffer :=
  { b with trace := b.trace ++ [c] }

/-- Modelled from the spec: `write(object)` "copies the struct's fixed-size
representation into the active stream, returns an opaque write-handle for
post-hoc field mutation"; the handle is the position of the copy in `data`. -/
def write (b : zone_buffer) (g : GfxImage) : Nat × zone_buffer :=
  (b.data.length, (b.emit (Item.struct g)).note Call.write)

/-- Modelled from the spec: `push_stream(tag)` "makes tag the active target
for subsequent writes, nesting on a stack". -/
def push_stream (b : zone_buffer) (s : XFILE_BLOCK) : zone_buffer :=
  ({ b with cur := s, saved := b.cur :: b.saved }).note (Call.push_stream s)

/-- Modelled from the spec: `pop_stream()` "restores the previous active
stream — fails (programmer error, fatal) if the stack is empty". -/
def pop_stream (b : zone_buffer) : Option zone_buffer :=
  match b.saved with
  | [] => none
  | s :: rest => some (({ b with cur := s, saved := rest }).note (Call.pop_stream b.cur))

/-- Modelled from the spec: `write_str(s)` "writes a nul-terminated copy of s
into the active stream and returns a pointer-sized offset marker"; the marker
is the offset of the copy in its stream. -/
def write_str (ssz : Nat) (b : zone_buffer) (s : String) : Nat × zone_buffer :=
  (b.offset ssz b.cur % 2 ^ 64, (b.emit (Item.str s)).note (Call.write_str s))

/-- Modelled from the spec: part of the `zone_buffer` model: number of padding
bytes that bring offset `off` to the next multiple of `2 ^ k`. -/
def padding (k off : Nat) : Nat := (2 ^ k - off % 2 ^ k) % 2 ^ k

/-- Modelled from the spec: `align(pow2_shift)` "pads to the given boundary
with zero bytes"; the boundary is `2 ^ pow2_shift` bytes of the active stream. -/
def align (ssz : Nat) (b : zone_buffer) (k : Nat) : zone_buffer :=
  (b.emit (Item.pad (padding k (b.offset ssz b.cur)))).note (Call.align k)

/-- Modelled from the spec: `write_stream(ptr, count)`, the bulk form of
`write_array`: copies `count` bytes found at `ptr` into the active stream. -/
def write_stream (b : zone_buffer) (src : List Nat) (count : Nat) : zone_buffer :=
  (b.emit (Item.bytes (readBytes src count))).note (Call.write_stream count)

/-- Modelled from the spec: part of the `zone_buffer` model: apply `f` to the
struct held by a buffer entry; other entries are left alone. -/
def onStruct (f : GfxImage → GfxImage) (e : XFILE_BLOCK × Item) : XFILE_BLOCK × Item :=
  match e.2 with
  | Item.struct g => (e.1, Item.struct (f g))
  | _ => e

/-- Modelled from the spec: part of the `zone_buffer` model: the "post-hoc field
mutation" of the struct copy behind write-handle `dest` (an assignment such as
`dest->name = ...`). -/
def modify (b : zone_buffer) (dest : Nat) (f : GfxImage → GfxImage) : zone_buffer :=
  { b with data := List.modify (onStruct f) dest b.data }

/-- Modelled from the spec: `clear_pointer(&field)` "sets the in-buffer pointer
field to a sentinel raw zero"; `field` is the setter of the pointer field of the
copy behind `dest`. -/
def clear_pointer (b : zone_buffer) (dest : Nat) (field : GfxImage → Nat → GfxImage) :
    zone_buffer :=
  (b.modify dest (fun g => field g 0)).note Call.clear_pointer

/-- Modelled from the spec: `write_streamfile(handle)` "appends a reference
record pointing at a companion Stream Block rather than inlining payload
bytes". -/
def write_streamfile (b : zone_buffer) (h : Nat) : zone_buffer :=
  ({ b with files := b.files ++ [h] }).note (Call.write_streamfile h)

end zone_buffer

/-! ## The asset object -/

/-- The `gfx_image` asset object: the members the sources read or assign. -/
structure gfx_image where
  name_ : String
  asset_ : Option Image
  is_iwi : Bool
  custom_streamed_image : Bool
  image_stream_blocks_paths : List String
  image_stream_files : List Nat
deriving DecidableEq, Repr

/-- The loop `for (int i = 0; i < 4; ++i) buf->write_streamfile(image_stream_files[i])`,
started at index `i` with `n` iterations left. -/
def write_streamfiles (files : List Nat) (b : zone_buffer) (i : Nat) : Nat → zone_buffer
  | 0 => b
  | n + 1 => write_streamfiles files (b.write_streamfile (files.getD i 0)) (i + 1) n

/-- Source `gfx_image::write` (gfximage.cpp 273-293).  `none` is the fatal
failure of `pop_stream`, or a null `asset_`. -/
def gfx_image.write (E : Env) (self : gfx_image) (buf : zone_buffer) : Option zone_buffer :=
  match self.asset_ with
  | none => none
  | some data =>
    let (dest, buf) := buf.write data.hdr
    let buf := buf.push_stream XFILE_BLOCK_VIRTUAL
    let (m, buf) := buf.write_str E.sizeof_GfxImage self.name_
    let buf := buf.modify dest (fun g => { g with name := m })
    let buf := buf.push_stream XFILE_BLOCK_TEMP
    let buf :=
      if data.hdr.pixelData ≠ 0 then
        let buf := buf.align E.sizeof_GfxImage 3
        let buf := buf.write_stream data.pixels (toSizeT data.hdr.dataLen1)
        buf.clear_pointer dest (fun g v => { g with pixelData := v })
      else buf
    match buf.pop_stream with
    | none => none
    | some buf =>
      match buf.pop_stream with
      | none => none
      | some buf =>
        if data.hdr.streamed then some (write_streamfiles self.image_stream_files buf 0 4)
        else some buf

/-! ## The blob reader (Stream Reader) -/

/-- Modelled from the spec: failures of a read of the Stream Reader (§4.2, §7),
whose code is not part of the sources. -/
inductive ReadError where
  | TruncatedDataError
  | FormatError
deriving DecidableEq, Repr

/-- Modelled from the spec: `assetmanager::reader`, the Stream Reader of §4.2
("sequential cursor over a serialized blob"), whose code is not part of the
sources; `items` is what lies after the cursor. -/
structure reader where
  items : List Item
deriving DecidableEq, Repr

namespace reader

/-- Modelled from the spec: `read_single<GfxImage>()` "copies a fixed-size struct
out, advances the cursor by its size, and returns an owning handle inside the
Arena"; a blob that is too short fails with `TruncatedDataError`. -/
def read_single (E : Env) (rd : reader) (mem : zone_memory) :
    Except ReadError (GfxImage × reader × zone_memory) :=
  match rd.items with
  | [] => Except.error ReadError.TruncatedDataError
  | Item.struct g :: rest => Except.ok (g, { items := rest }, (mem.allocate E.sizeof_GfxImage).2)
  | _ :: _ => Except.error ReadError.FormatError

/-- Modelled from the spec: `read_string()` "reads a nul-terminated byte run
starting at the current cursor, advances past it, and duplicates it into the
Arena"; returns the address of the duplicate and the string. -/
def read_string (rd : reader) (mem : zone_memory) :
    Except ReadError ((Nat × String) × reader × zone_memory) :=
  match rd.items with
  | [] => Except.error ReadError.TruncatedDataError
  | Item.str s :: rest =>
    Except.ok (((mem.duplicate_string s).1, s), { items := rest }, (mem.duplicate_string s).2)
  | _ :: _ => Except.error ReadError.FormatError

/-- Modelled from the spec: `read_array<unsigned char>()` "reads count contiguous
elements analogously"; returns the address of the copy and the bytes. -/
def read_array (rd : reader) (mem : zone_memory) :
    Except ReadError ((Nat × List Nat) × reader × zone_memory) :=
  match rd.items with
  | [] => Except.error ReadError.TruncatedDataError
  | Item.bytes b :: rest =>
    Except.ok (((mem.allocate b.length).1, b), { items := rest }, (mem.allocate b.length).2)
  | _ :: _ => Except.error ReadError.FormatError

end reader

/-! ## Acquisition (gfximage.cpp 26-258) -/

/-- Source `clean_name` (gfximage.cpp 33-39). -/
def clean_name (name : String) : String :=
  String.mk (name.data.map (fun c => if c = '*' then '_' else c))

/-- Source `add_loaded_image_flags` (gfximage.cpp 45-51). -/
def add_loaded_image_flags (E : Env) (image : GfxImage) : GfxImage :=
  let image :=
    if image.levelCount ≤ 1 then { image with flags := image.flags ||| E.IMAGE_FLAG_NOMIPMAPS }
    else image
  if image.numElements > 1 ∧ image.mapType ≠ E.MAPTYPE_CUBE then
    { image with mapType := E.MAPTYPE_ARRAY }
  else image

/-- Source `iwi::parse` (gfximage.cpp 57-81). -/
def iwi.parse (E : Env) (name : String) (mem : zone_memory) : Option Image × zone_memory :=
  match E.parse_iwi name mem with
  | (none, mem) => (none, mem)
  | (some ret, mem) =>
    let mem := (mem.allocate E.sizeof_GfxImage).2
    let img : GfxImage :=
      { GfxImage.zero with
        name := ret.name, imageFormat := ret.imageFormat, mapType := ret.mapType,
        dataLen1 := ret.dataLen, dataLen2 := ret.dataLen, width := ret.width,
        height := ret.height, depth := ret.depth, numElements := ret.numElements,
        levelCount := ret.levelCount, pixelData := ret.pixelData, streamed := false,
        semantic := E.TS_COLOR_MAP, category := E.IMG_CATEGORY_LOAD_FROM_FILE }
    (some { hdr := add_loaded_image_flags E img, nameStr := ret.nameStr, pixels := ret.pixels },
      mem)

/-- Source `directxtex::load_image` (gfximage.cpp 87-103). -/
def directxtex.load_image (E : Env) (name : String) : Option ScratchImage :=
  let base := "images\\" ++ clean_name name
  if E.fs_file_exists (base ++ ".dds") then
    E.LoadFromDDSFile (E.get_file_path (base ++ ".dds") ++ base ++ ".dds")
  else if E.fs_file_exists (base ++ ".tga") then
    E.LoadFromTGAFile (E.get_file_path (base ++ ".tga") ++ base ++ ".tga")
  else if E.fs_file_exists (base ++ ".png") then
    E.LoadFromWICFile (E.get_file_path (base ++ ".png") ++ base ++ ".png")
  else none

/-- Source `directxtex::parse` (gfximage.cpp 105-139). -/
def directxtex.parse (E : Env) (name : String) (mem : zone_memory) :
    Option Image × zone_memory :=
  match directxtex.load_image E name with
  | none => (none, mem)
  | some scratch =>
    let sz := scratch.pixelsSize
    let mem := (mem.allocate E.sizeof_GfxImage).2
    let px := mem.allocate sz
    let nm := px.2.duplicate_string name
    let img : GfxImage :=
      { GfxImage.zero with
        imageFormat := scratch.format, mapType := scratch.dimension,
        semantic := E.TS_COLOR_MAP, category := E.IMG_CATEGORY_LOAD_FROM_FILE,
        width := scratch.width % 2 ^ 16, height := scratch.height % 2 ^ 16,
        depth := scratch.depth % 2 ^ 16, numElements := scratch.arraySize % 2 ^ 16,
        levelCount := scratch.mipLevels % 2 ^ 8, streamed := false,
        dataLen1 := toInt32 sz, dataLen2 := toInt32 sz,
        pixelData := px.1, name := nm.1 }
    let img :=
      if scratch.isCubemap then { img with mapType := E.MAPTYPE_CUBE, numElements := 1 }
      else img
    (some { hdr := add_loaded_image_flags E img, nameStr := name,
            pixels := readBytes scratch.pixels sz }, nm.2)

/-- Source `gfx_image::parse_custom` (gfximage.cpp 143-148). -/
def gfx_image.parse_custom (E : Env) (self : gfx_image) (name : String) (mem : zone_memory) :
    Option Image × gfx_image × zone_memory :=
  match directxtex.parse E name mem with
  | (some i, mem) => (some i, { self with is_iwi := false }, mem)
  | (none, mem) =>
    match iwi.parse E name mem with
    | (some i, mem) => (some i, { self with is_iwi := true }, mem)
    | (none, mem) => (none, self, mem)

/-- Source `get_streamed_image_pixels_path` (gfximage.cpp 178-185). -/
def get_streamed_image_pixels_path (E : Env) (name : String) (stream : Nat) : Option String :=
  let p := "streamed_images\\" ++ clean_name name ++ "_stream" ++ toString stream ++ ".pixels"
  let full := E.get_file_path p ++ p
  if E.io_file_exists full then some full else none

/-- The loop of `parse_streamed_image` (gfximage.cpp 199-203) over the listed
sub-indices. -/
def collect_stream_paths (E : Env) (name : String) (paths : List String) : List Nat → List String
  | [] => paths
  | i :: rest =>
    match get_streamed_image_pixels_path E name i with
    | some path => collect_stream_paths E name (paths.set i path) rest
    | none => collect_stream_paths E name paths rest

/-- Source `gfx_image::parse_streamed_image` (gfximage.cpp 188-206). -/
def gfx_image.parse_streamed_image (E : Env) (self : gfx_image) (name : String)
    (mem : zone_memory) : Except ReadError (Option Image × gfx_image × zone_memory) :=
  match E.reader_open ("streamed_images\\" ++ clean_name name ++ ".h1Image") with
  | none => Except.ok (none, self, mem)
  | some items =>
    match reader.read_single E { items := items } mem with
    | Except.error e => Except.error e
    | Except.ok (img, rd, mem) =>
      match rd.read_string mem with
      | Except.error e => Except.error e
      | Except.ok ((addr, s), _, mem) =>
        let img := { img with name := addr }
        let self := { self with custom_streamed_image := true }
        let img := { img with streamed := true }
        let paths := collect_stream_paths E name self.image_stream_blocks_paths [0, 1, 2, 3]
        let self := { self with image_stream_blocks_paths := paths }
        Except.ok (some { hdr := img, nameStr := s, pixels := [] }, self, mem)

/-- The reads of `gfx_image::parse` between `open` and `close`
(gfximage.cpp 216-219), with the reader left behind. -/
def gfx_image.parse_read (E : Env) (rd : reader) (mem : zone_memory) :
    Except ReadError (Image × reader × zone_memory) :=
  match rd.read_single E mem with
  | Except.error e => Except.error e
  | Except.ok (img, rd, mem) =>
    match rd.read_string mem with
    | Except.error e => Except.error e
    | Except.ok ((addr, s), rd, mem) =>
      let img := { img with name := addr }
      if img.pixelData ≠ 0 then
        match rd.read_array mem with
        | Except.error e => Except.error e
        | Except.ok ((paddr, b), rd, mem) =>
          Except.ok ({ hdr := { img with pixelData := paddr }, nameStr := s, pixels := b }, rd, mem)
      else Except.ok ({ hdr := img, nameStr := s, pixels := [] }, rd, mem)

/-- Source `gfx_image::parse` (gfximage.cpp 209-222). -/
def gfx_image.parse (E : Env) (name : String) (mem : zone_memory) :
    Except ReadError (Option Image × zone_memory) :=
  match E.reader_open (E.get_file_path "" ++ "images\\" ++ clean_name name ++ ".dds") with
  | none => Except.ok (none, mem)
  | some items =>
    match gfx_image.parse_read E { items := items } mem with
    | Except.error e => Except.error e
    | Except.ok (img, _, mem) => Except.ok (some img, mem)

/-- The default image synthesized by `gfx_image::init` (gfximage.cpp 239-256). -/
def default_image (E : Env) (name : String) (mem : zone_memory) : Image × zone_memory :=
  let mem := (mem.allocate E.sizeof_GfxImage).2
  let nm := mem.duplicate_string name
  let img : GfxImage :=
    { GfxImage.zero with
      imageFormat := E.DXGI_FORMAT_R8G8B8A8_UNORM, mapType := E.MAPTYPE_2D,
      semantic := E.TS_2D, category := E.IMG_CATEGORY_AUTO_GENERATED, flags := 0,
      dataLen1 := 4, dataLen2 := 4, width := 1, height := 1, depth := 1,
      numElements := 1, levelCount := 1, streamed := false,
      pixelData := E.def_addr, name := nm.1 }
  ({ hdr := img, nameStr := name, pixels := [255, 0, 0, 255] }, nm.2)

/-- Source `gfx_image::init(const std::string&, zone_memory*)` (gfximage.cpp 225-258). -/
def gfx_image.init (E : Env) (self : gfx_image) (name : String) (mem : zone_memory) :
    Except ReadError (gfx_image × zone_memory) :=
  let self := { self with name_ := name }
  if E.referenced self.name_ then
    let mem := (mem.allocate E.sizeof_GfxImage).2
    let nm := mem.duplicate_string name
    let stub : Image := { hdr := { GfxImage.zero with name := nm.1 }, nameStr := name, pixels := [] }
    Except.ok ({ self with asset_ := some stub }, nm.2)
  else
    match gfx_image.parse E name mem with
    | Except.error e => Except.error e
    | Except.ok (some i, mem) => Except.ok ({ self with asset_ := some i }, mem)
    | Except.ok (none, mem) =>
      match self.parse_streamed_image E name mem with
      | Except.error e => Except.error e
      | Except.ok (some s, self, mem) => Except.ok ({ self with asset_ := some s }, mem)
      | Except.ok (none, self, mem) =>
        match self.parse_custom E name mem with
        | (some c, self, mem) => Except.ok ({ self with asset_ := some c }, mem)
        | (none, self, mem) =>
          Except.ok ({ self with asset_ := some (default_image E name mem).1 },
            (default_image E name mem).2)

/-- Source `gfx_image::name` (gfximage.cpp 270). -/
def gfx_image.name (self : gfx_image) : String := self.name_

/-- Source `gfx_image::type` (gfximage.cpp 271). -/
def gfx_image.type (E : Env) (_self : gfx_image) : Int := E.ASSET_TYPE_IMAGE

/-! ## Statement vocabulary -/

/-- The data items (padding left out) that a call appended to the buffer,
in emission order. -/
def emitted (before after : zone_buffer) : List Item :=
  ((after.data.drop before.data.length).map Prod.snd).filter (fun it => !it.isPad)

/-- The calls a buffer received between two of its states. -/
def new_calls (before after : zone_buffer) : List Call :=
  after.trace.drop before.trace.length

/-- Whether a call is a stream push or pop. -/
def Call.isStreamOp : Call → Bool
  | Call.push_stream _ => true
  | Call.pop_stream _ => true
  | _ => false

/-- Whether a call is `write_streamfile`. -/
def Call.isStreamFile : Call → Bool
  | Call.write_streamfile _ => true
  | _ => false

/-- Offset marker that `write_str` returns inside `gfx_image::write`: the
offset of the virtual stream once the struct copy has been written. -/
def name_marker (E : Env) (buf : zone_buffer) : Nat :=
  (streamSize E.sizeof_GfxImage XFILE_BLOCK_VIRTUAL buf.data +
    (if buf.cur = XFILE_BLOCK_VIRTUAL then E.sizeof_GfxImage else 0)) % 2 ^ 64

/-- Offset of the temp stream when `gfx_image::write` reaches `align`. -/
def temp_offset (E : Env) (buf : zone_buffer) : Nat :=
  streamSize E.sizeof_GfxImage XFILE_BLOCK_TEMP buf.data +
    (if buf.cur = XFILE_BLOCK_TEMP then E.sizeof_GfxImage else 0)

/-- The struct copy that `gfx_image::write` leaves in the buffer. -/
def buffer_copy (E : Env) (img : Image) (buf : zone_buffer) : GfxImage :=
  { img.hdr with name := name_marker E buf, pixelData := 0 }

/-- The pixel bytes `gfx_image::write` hands to `write_stream`. -/
def payload (img : Image) : List Nat :=
  readBytes img.pixels (toSizeT img.hdr.dataLen1)

/-- The four handles `image_stream_files[0..3]`. -/
def stream_handles (self : gfx_image) : List Nat :=
  (List.range 4).map (fun i => self.image_stream_files.getD i 0)

/-- The struct with its two pointer fields blanked: what remains are the
non-pointer fields. -/
def GfxImage.nonptr (g : GfxImage) : GfxImage := { g with name := 0, pixelData := 0 }

/-- What a step of the acquisition chain may change: the asset object and the arena. -/
abbrev AcqState := gfx_image × zone_memory

/-- The chain-execution discipline in the words of §4.4 of the spec: "try in
order, first success wins, exhaustion yields a policy-chosen fallback".  A step
that yields an asset ends the chain and no later step is run; a step that yields
nothing hands its state to the next one; a read error ends the chain. -/
def run_chain (dflt : AcqState → Image × AcqState) :
    List (AcqState → Except ReadError (Option Image × AcqState)) → AcqState →
      Except ReadError (Image × AcqState)
  | [], s => Except.ok (dflt s)
  | f :: fs, s =>
    match f s with
    | Except.error e => Except.error e
    | Except.ok (some a, s') => Except.ok (a, s')
    | Except.ok (none, s') => run_chain dflt fs s'

/-- The three acquisition steps of an image in the order (a) canonical form,
(b) legacy container, (c) external source. -/
def image_chain (E : Env) (name : String) :
    List (AcqState → Except ReadError (Option Image × AcqState)) :=
  [ fun s =>
      match gfx_image.parse E name s.2 with
      | Except.error e => Except.error e
      | Except.ok (r, mem) => Except.ok (r, s.1, mem),
    fun s => s.1.parse_streamed_image E name s.2,
    fun s => Except.ok (s.1.parse_custom E name s.2) ]

/-- Step (d): the default image, which leaves the asset object alone. -/
def image_default (E : Env) (name : String) (s : AcqState) : Image × AcqState :=
  ((default_image E name s.2).1, s.1, (default_image E name s.2).2)

/-- Storing the acquired image in `asset_`. -/
def store_asset (r : Except ReadError (Image × AcqState)) :
    Except ReadError (gfx_image × zone_memory) :=
  match r with
  | Except.error e => Except.error e
  | Except.ok (a, g, m) => Except.ok ({ g with asset_ := some a }, m)

/-! ## Concrete inputs used to exercise the statements -/

/-- An environment in which no file exists; names starting with a comma are
referenced assets. -/
def envT : Env :=
  { sizeof_GfxImage := 104, IMAGE_FLAG_NOMIPMAPS := 2, MAPTYPE_2D := 3, MAPTYPE_CUBE := 5,
    MAPTYPE_ARRAY := 7, TS_2D := 0, TS_COLOR_MAP := 1, IMG_CATEGORY_LOAD_FROM_FILE := 3,
    IMG_CATEGORY_AUTO_GENERATED := 1, DXGI_FORMAT_R8G8B8A8_UNORM := 28, ASSET_TYPE_IMAGE := 16,
    def_addr := 4096, referenced := fun n => n.data.head? = some ',',
    get_file_path := fun _ => "zonetool\\", fs_file_exists := fun _ => false,
    io_file_exists := fun _ => false, reader_open := fun _ => none,
    LoadFromDDSFile := fun _ => none, LoadFromTGAFile := fun _ => none,
    LoadFromWICFile := fun _ => none, parse_iwi := fun _ m => (none, m) }

/-- A fresh asset object. -/
def self0 : gfx_image :=
  { name_ := "", asset_ := none, is_iwi := false, custom_streamed_image := false,
    image_stream_blocks_paths := ["", "", "", ""], image_stream_files := [11, 12, 13, 14] }

/-- A buffer with nothing written and no stream pushed. -/
def buf0 : zone_buffer :=
  { cur := XFILE_BLOCK_OTHER 0, saved := [], data := [], files := [], trace := [] }

/-- A buffer whose temp stream already holds three bytes. -/
def buf3 : zone_buffer :=
  { cur := XFILE_BLOCK_OTHER 0, saved := [], data := [(XFILE_BLOCK_TEMP, Item.bytes [7, 7, 7])],
    files := [], trace := [] }

/-- A streamed 2x2 one-byte-per-pixel image with pixel bytes at address 9000. -/
def imgPix : Image :=
  { hdr := { GfxImage.zero with
      name := 8000, imageFormat := 61, mapType := 3, dataLen1 := 4, dataLen2 := 4, width := 2,
      height := 2, depth := 1, numElements := 1, levelCount := 1, streamed := true,
      pixelData := 9000 },
    nameStr := "sky", pixels := [1, 2, 3, 4] }

/-- The same image found at other addresses. -/
def imgPixMoved : Image :=
  { hdr := { imgPix.hdr with name := 500, pixelData := 700 }, nameStr := "sky",
    pixels := [1, 2, 3, 4, 99] }

/-- A decoded 2x2 texture with four pixel bytes. -/
def scratch2 : ScratchImage :=
  { format := 61, dimension := 3, width := 2, height := 2, depth := 1, arraySize := 1,
    mipLevels := 1, isCubemap := false, pixels := [9, 8, 7, 6], pixelsSize := 4 }

/-- An environment in which the only file is the external source
`images\sky.tga`, which the texture codec decodes to `scratch2`; it holds
neither a canonical blob nor a legacy container. -/
def envTga : Env :=
  { envT with
    fs_file_exists := fun p => decide (p = "images\\sky.tga")
    LoadFromTGAFile := fun _ => some scratch2 }

/-- An asset object holding `imgPix`. -/
def selfPix : gfx_image := { self0 with name_ := "sky", asset_ := some imgPix }

/-- An asset object holding `imgPixMoved`. -/
def selfPixMoved : gfx_image := { self0 with name_ := "sky", asset_ := some imgPixMoved }

/-! ## Export of streamed images (gfximage.cpp 151-158, 296-337) -/

/-- The game struct `XStreamFile` (declared in a header that is not part of the
sources): the fields `dump_streamed_image` reads. -/
structure XStreamFile where
  fileIndex : Nat
  offset : Nat
  offsetEnd : Nat
deriving DecidableEq, Repr

/-- The descriptor `DirectX::Image` handed to the encoder. -/
structure DxImage where
  format : Nat
  width : Nat
  height : Nat
  rowPitch : Nat
  slicePitch : Nat
  pixels : List Nat
deriving DecidableEq, Repr

/-- The world outside `gfximage.cpp` for the export of streamed images: the
game's table `stream_files` and index `*stream_file_index`, the file-system
helpers, the opening of a pack file (`none` when `std::ifstream` fails to open
it, else its bytes), the block codec and the pitch computation of the texture
library. -/
structure DumpEnv where
  stream_files : Nat → XStreamFile
  stream_file_index : Nat
  get_fastfile : String
  get_zone_path : String → String
  get_dump_path : String
  ifstream_open : String → Option (List Nat)
  decompress_lz4_block : List Nat → List Nat
  ComputePitch : Nat → Nat → Nat → Nat × Nat

/-- What `dump_streamed_image` does to the outside, in order: the byte-range
read it requests from a pack file, the outputs it produces, and the exception
`std::length_error` with which it is left when the buffer of a block cannot be
constructed. -/
inductive DumpEvent where
  | read (path : String) (offset : Nat) (count : Nat)
  | create_directories (path : String)
  | write_file (path : String) (data : List Nat)
  | SaveToDDSFile (path : String) (img : DxImage)
  | length_error
deriving DecidableEq, Repr

/-- The largest size of a `std::vector<char>` (`max_size()`, 64-bit target): the
constructor throws `std::length_error` for a larger count. -/
def vector_max_size : Nat := 2 ^ 63 - 1

/-- Unsigned 64-bit subtraction `a - b` (the size of `std::vector<char> buf`). -/
def size_sub (a b : Nat) : Nat := (a % 2 ^ 64 + 2 ^ 64 - b % 2 ^ 64) % 2 ^ 64

/-- The bytes `in.seekg(offset); in.read(p, count)` delivers from a file with
the given content: fewer than `count` when the file ends early. -/
def ifstream_read (content : List Nat) (offset count : Nat) : List Nat :=
  (content.drop offset).take count

/-- The zero-filled `std::vector<char> buf(count)` after the read: the bytes
delivered, then the zeros the read did not overwrite. -/
def read_buffer (content : List Nat) (offset count : Nat) : List Nat :=
  ifstream_read content offset count ++
    List.replicate (count - (ifstream_read content offset count).length) 0

/-- The pack file of a stream block (gfximage.cpp 303-305). -/
def pak_path (D : DumpEnv) (isSelf : Bool) (sf : XStreamFile) : String :=
  let pak := if isSelf then D.get_fastfile else "imagefile" ++ toString sf.fileIndex ++ ".pak"
  let dir := D.get_zone_path pak
  dir ++ pak

/-- One iteration of the loop of `dump_streamed_image` (gfximage.cpp 300-335),
for sub-index `i`; a `continue` leaves no event.  When the unsigned difference
`offsetEnd - offset` exceeds `max_size()`, as it does for every `offsetEnd < offset`
below `2^63`, the constructor of `buf` (line 309) throws before the read.  A failed
allocation of a count within `max_size()` depends on the machine and is left out. -/
def dump_stream_block (D : DumpEnv) (image : Image) (isSelf dumpDDS : Bool) (i : Nat) :
    List DumpEvent :=
  let sf := D.stream_files (D.stream_file_index + i)
  if sf.fileIndex = 0 ∨ sf.offset = 0 ∨ sf.offsetEnd = 0 then []
  else
    let path := pak_path D isSelf sf
    match D.ifstream_open path with
    | none => []
    | some content =>
      let count := size_sub sf.offsetEnd sf.offset
      if vector_max_size < count then [DumpEvent.length_error]
      else
      let buf := read_buffer content sf.offset count
      let dec := D.decompress_lz4_block buf
      let outdir := D.get_dump_path ++ "streamed_images\\"
      let raw := outdir ++ clean_name image.nameStr ++ "_stream" ++ toString i ++ ".pixels"
      let pitch := D.ComputePitch image.hdr.imageFormat (image.hdr.streams.getD i (0, 0)).1
        (image.hdr.streams.getD i (0, 0)).2
      let img : DxImage :=
        { format := image.hdr.imageFormat, width := (image.hdr.streams.getD i (0, 0)).1,
          height := (image.hdr.streams.getD i (0, 0)).2, rowPitch := pitch.1,
          slicePitch := pitch.2, pixels := dec }
      let ddsPath := outdir ++ clean_name image.nameStr ++ "_stream" ++ toString i ++ ".dds"
      [DumpEvent.read path sf.offset count, DumpEvent.create_directories outdir,
        DumpEvent.write_file raw dec] ++
        (if dumpDDS then [DumpEvent.SaveToDDSFile ddsPath img] else [])

/-- The loop `for (int i = 0; i < 4; ++i)` of `dump_streamed_image`, started at
index `i` with `n` iterations left; an exception thrown by an iteration leaves
the loop and the function (nothing catches it). -/
def dump_streamed_image_loop (D : DumpEnv) (image : Image) (isSelf dumpDDS : Bool) (i : Nat) :
    Nat → List DumpEvent
  | 0 => []
  | n + 1 =>
    if DumpEvent.length_error ∈ dump_stream_block D image isSelf dumpDDS i then
      dump_stream_block D image isSelf dumpDDS i
    else
      dump_stream_block D image isSelf dumpDDS i ++
        dump_streamed_image_loop D image isSelf dumpDDS (i + 1) n

/-- Source `dump_streamed_image` (gfximage.cpp 296-337). -/
def dump_streamed_image (D : DumpEnv) (image : Image) (isSelf dumpDDS : Bool) : List DumpEvent :=
  dump_streamed_image_loop D image isSelf dumpDDS 0 4

/-- Source `get_streamed_image_pixels` (gfximage.cpp 151-158); `read_file` is
the collaborator `utils::io::read_file`. -/
def get_streamed_image_pixels (E : Env) (read_file : String → List Nat) (name : String)
    (stream : Nat) : Option (List Nat) :=
  let p := "streamed_images\\" ++ clean_name name ++ "_stream" ++ toString stream ++ ".pixels"
  let full := E.get_file_path p ++ p
  if E.io_file_exists full then some (read_file full) else none

/-- The file name of a companion stream file relative to the dump or search
directory, as the spec's pattern over (asset name, sub-index). -/
def stream_pixels_name (name : String) (i : Nat) : String :=
  "streamed_images\\" ++ clean_name name ++ "_stream" ++ toString i ++ ".pixels"

/-- A pack-file world: sub-index 1 of the image is the byte range [16, 32) of
`imagefile1.pak`, a file of only 20 bytes; the other sub-indices are absent;
the codec is the identity. -/
def dumpEnvShort : DumpEnv :=
  { stream_files := fun k =>
      if k = 8 then { fileIndex := 1, offset := 16, offsetEnd := 32 }
      else { fileIndex := 0, offset := 0, offsetEnd := 0 },
    stream_file_index := 7,
    get_fastfile := "self.ff",
    get_zone_path := fun _ => "zone\\",
    get_dump_path := "dump\\",
    ifstream_open := fun p =>
      if p = "zone\\imagefile1.pak" then some (List.range 20) else none,
    decompress_lz4_block := fun b => b,
    ComputePitch := fun _ w h => (w, w * h) }

/-- A pack-file world with a reversed range: sub-index 0 of the image has
`offset = 32` and `offsetEnd = 16` in `imagefile1.pak`, sub-index 1 is the byte
range [16, 32) of the same file of 64 bytes; the codec is the identity. -/
def dumpEnvReversed : DumpEnv :=
  { stream_files := fun k =>
      if k = 7 then { fileIndex := 1, offset := 32, offsetEnd := 16 }
      else if k = 8 then { fileIndex := 1, offset := 16, offsetEnd := 32 }
      else { fileIndex := 0, offset := 0, offsetEnd := 0 },
    stream_file_index := 7,
    get_fastfile := "self.ff",
    get_zone_path := fun _ => "zone\\",
    get_dump_path := "dump\\",
    ifstream_open := fun p =>
      if p = "zone\\imagefile1.pak" then some (List.range 64) else none,
    decompress_lz4_block := fun b => b,
    ComputePitch := fun _ w h => (w, w * h) }

/-! ## Archive listing (zonetool.cpp 143-219) -/

/-- The world outside `zonetool.cpp` for the archive listing: `fs::path::stem`,
and what `DB_EnumXAssets` enumerates, over all asset types in order, once the
zone of the given name has been loaded: for each asset `type_to_string` of its
type and `get_asset_name` (`none` for a null pointer).  The commands `loadzone`
and `unloadzones` and the wait are not modelled beyond this. -/
structure ArchiveEnv where
  stem : String → String
  enum_assets : String → List (String × Option String)

/-- The call `s.find(c, pos)` of `std::string` for a one-character pattern: the
index of the first `c` at or after `pos`, `none` for `npos`. -/
def str_find (s : List Char) (c : Char) (pos : Nat) : Option Nat :=
  if (s.drop pos).indexOf c < (s.drop pos).length then some (pos + (s.drop pos).indexOf c)
  else none

/-- The call `s.replace(pos, 1, ab)` of `std::string` with a two-character
replacement `ab`. -/
def str_replace1 (s : List Char) (pos : Nat) (a b : Char) : List Char :=
  s.take pos ++ a :: b :: s.drop (pos + 1)

/-- One escaping loop of the archive listing (zonetool.cpp 193-197, 198-202):
`while ((pos = s.find(c, pos)) != npos) { s.replace(pos, 1, ab); pos += 2; }`. -/
def escape_loop (c a b : Char) (s : List Char) (pos : Nat) : List Char :=
  match h : str_find s c pos with
  | none => s
  | some p => escape_loop c a b (str_replace1 s p a b) (p + 2)
termination_by s.length + 1 - pos
decreasing_by
  unfold str_find at h
  split at h
  · rename_i hlt
    cases h
    simp only [List.length_drop] at hlt
    simp only [str_replace1, List.length_append, List.length_take, List.length_cons,
      List.length_drop]
    omega
  · cases h

/-- The escaping of an asset name (zonetool.cpp 192-202): first the backslash
loop, then the double-quote loop. -/
def escape_name (name : String) : String :=
  let s := escape_loop (Char.ofNat 92) (Char.ofNat 92) (Char.ofNat 92) name.data 0
  String.mk (escape_loop (Char.ofNat 34) (Char.ofNat 92) (Char.ofNat 34) s 0)

/-- The assets collected for a zone (zonetool.cpp 165-181): those whose name
is not null, not empty and does not start with a comma. -/
def collect_assets (W : ArchiveEnv) (zone_name : String) : List (String × String) :=
  (W.enum_assets zone_name).filterMap (fun a =>
    match a.2 with
    | none => none
    | some asset_name =>
      if asset_name.data.head? ≠ none ∧ asset_name.data.head? ≠ some ',' then
        some (a.1, asset_name)
      else none)

/-- One iteration of the children loop (zonetool.cpp 190-207) for index `j`. -/
def archive_child_step (zone_name : String) (assets : List (String × String))
    (json_content : String) (j : Nat) : String :=
  let type := (assets.getD j ("", "")).1
  let name := (assets.getD j ("", "")).2
  let escaped_name := escape_name name
  let path := zone_name ++ "/" ++ type ++ "/" ++ escaped_name
  let json_content := json_content ++
    ("        \x7b\"name\": \"" ++ escaped_name ++ "\", \"path\": \"" ++ path ++ "\"\x7d")
  let json_content :=
    if j < size_sub assets.length 1 then json_content ++ "," else json_content
  json_content ++ "\n"

/-- One iteration of the zone loop (zonetool.cpp 147-216) for index `i`; a
launcher zone leaves the text as it is. -/
def archive_zone_step (W : ArchiveEnv) (zones : List String) (end_idx : Nat)
    (json_content : String) (i : Nat) : String :=
  let zone_name := W.stem (zones.getD i "")
  if zone_name = "hmw_launcher" ∨ zone_name = "hmw_launcher_mp" ∨ zone_name = "patch_common_mp"
  then json_content
  else
    let assets := collect_assets W zone_name
    let json_content := json_content ++ "    \x7b\n"
    let json_content := json_content ++ ("      \"name\": \"" ++ zone_name ++ "\",\n")
    let json_content := json_content ++ "      \"children\": [\n"
    let json_content :=
      (List.range assets.length).foldl (archive_child_step zone_name assets) json_content
    let json_content := json_content ++ "      ]\n"
    let json_content := json_content ++ "    \x7d"
    let json_content := if i < size_sub end_idx 1 then json_content ++ "," else json_content
    json_content ++ "\n"

/-- The text `json_content` that `batchdumpzonewalkarchive` builds for the chunk
of zone indices `[start_idx, end_idx)` (zonetool.cpp 143-219). -/
def chunk_json (W : ArchiveEnv) (zones : List String) (start_idx end_idx : Nat) : String :=
  (List.range' start_idx (end_idx - start_idx)).foldl (archive_zone_step W zones end_idx)
    "\x7b\n  \"zones\": [\n" ++ "  ]\n\x7d\n"

/-- An archive world in which zone files are named by their stem and the zone
`a` holds one image `sky`, one referenced image `,cloud` and one nameless asset. -/
def archiveEnvT : ArchiveEnv :=
  { stem := fun p => p,
    enum_assets := fun z =>
      if z = "a" then [("image", some "sky"), ("image", some ",cloud"), ("material", none)]
      else [] }

/-! ## Asset pools (zonetool.cpp 296-369) -/

/-- Source table `asset_type_sizes` of `get_asset_type_size` (zonetool.cpp 298-309). -/
def asset_type_sizes : List Nat :=
  [ 1, 1, 1, 1, 1, 1, 1, 1,
    592, 1, 1, 1, 1, 1, 1, 1,
    104, 1, 1, 1, 1, 1, 1, 1,
    1, 1, 1, 1, 1, 1, 1, 1,
    1, 1, 1, 1, 1, 16, 1, 1,
    1, 1, 1, 1, 1, 1, 1, 1,
    1, 1, 1, 1, 1, 1, 1, 1,
    1, 1, 1, 1, 1, 1, 1, 1,
    1, 1, 1, 1, 1, 1, 1, 1 ]

/-- Source `get_asset_type_size` (zonetool.cpp 296-312); asset types are their
enum values.  An index past the table, which a constant expression rejects,
reads as `0`. -/
def get_asset_type_size (type : Nat) : Nat := asset_type_sizes.getD type 0

/-- What `patch_asset_loading` does to the host image and what
`reallocate_asset_pool` copies, in the order it happens. -/
inductive PatchEvent where
  | jump (addr : Nat) (stub : String)
  | inject (addr : Nat) (target : Nat)
  | inject_string (addr : Nat) (s : String)
  | set (addr : Nat) (bytes : Nat) (value : Nat)
  | memmove (dst : Nat) (src : Nat) (n : Nat)
deriving DecidableEq, Repr

/-- The world outside `zonetool.cpp` for the pool code: the game's own size
query `DB_GetXAssetTypeSize`, whether `assert` is compiled out, the address of
the static array `new_pool` of each instantiation `<Type, Size>`, and the enum
values of the three asset types named in `patch_asset_loading` (declared in a
header that is not part of the sources). -/
structure PoolEnv where
  DB_GetXAssetTypeSize : Nat → Nat
  NDEBUG : Bool
  new_pool : Nat → Nat → Nat
  ASSET_TYPE_LOCALIZE_ENTRY : Nat
  ASSET_TYPE_IMAGE : Nat
  ASSET_TYPE_MATERIAL : Nat

/-- The process state the pool code works on: data memory (byte at each
address), the game's tables `g_assetPool` (address of the backing store of each
type) and `g_poolSize` (capacity of each type, in elements), and the log of
patches and copies.  Patches go to the host's code image, which is kept as a
log only: it is disjoint from the pool stores and tables. -/
structure PoolState where
  mem : Nat → Nat
  g_assetPool : Nat → Nat
  g_poolSize : Nat → Nat
  log : List PatchEvent

/-- The C library `memmove(dst, src, n)` on byte memory: the `n` bytes at `src`,
as they were before the call, end up at `dst`. -/
def memmove (mem : Nat → Nat) (dst src n : Nat) : Nat → Nat :=
  fun a => if dst ≤ a ∧ a < dst + n then mem (src + (a - dst)) else mem a

/-- The little-endian 64-bit value (a pointer) stored at address `a`. -/
def read_u64 (mem : Nat → Nat) (a : Nat) : Nat :=
  ((List.range 8).map (fun i => mem (a + i) % 256 * 256 ^ i)).sum

/-- Source `reallocate_asset_pool<Type, Size>` (zonetool.cpp 314-329), with `T`
for the template argument `Type`.  `none` is the abort of a failed `assert`; otherwise the address of `new_pool` and the
new state.  The copy length `g_poolSize[Type] * element_size` is formed in
32-bit unsigned arithmetic (`element_size` is `unsigned int`). -/
def reallocate_asset_pool (E : PoolEnv) (T Size : Nat) (st : PoolState) :
    Option (Nat × PoolState) :=
  let element_size := get_asset_type_size T
  let new_pool := E.new_pool T Size
  if E.NDEBUG = false ∧ get_asset_type_size T ≠ E.DB_GetXAssetTypeSize T then none
  else
    let n := (st.g_poolSize T * element_size) % 2 ^ 32
    let st := { st with
      mem := memmove st.mem new_pool (st.g_assetPool T) n
      log := st.log ++ [PatchEvent.memmove new_pool (st.g_assetPool T) n] }
    let st := { st with g_assetPool := fun t => if t = T then new_pool else st.g_assetPool t }
    let st := { st with g_poolSize := fun t => if t = T then Size else st.g_poolSize t }
    some (new_pool, st)

/-- One patch of the host image. -/
def PoolState.patch (st : PoolState) (e : PatchEvent) : PoolState :=
  { st with log := st.log ++ [e] }

/-- Source `patch_asset_loading` (zonetool.cpp 331-369). -/
def patch_asset_loading (E : PoolEnv) (st : PoolState) : Option PoolState :=
  let st := st.patch (PatchEvent.jump 0x14029F229 "load_proto_stub")
  let st := st.patch (PatchEvent.jump 0x14029EF8D "load_proto_unknown_stub")
  match reallocate_asset_pool E E.ASSET_TYPE_LOCALIZE_ENTRY 15000 st with
  | none => none
  | some (_, st) =>
    match reallocate_asset_pool E E.ASSET_TYPE_IMAGE 30000 st with
    | none => none
    | some (image_pool, st) =>
      let st := st.patch (PatchEvent.inject 0x1402BBAA5 (image_pool + 8))
      let st := st.patch (PatchEvent.inject 0x1402BBAC3 (image_pool + 8))
      match reallocate_asset_pool E E.ASSET_TYPE_MATERIAL 18000 st with
      | none => none
      | some (material_pool, st) =>
        let st := st.patch (PatchEvent.inject (0x1402BBB02 + 3) (material_pool + 8))
        let st := st.patch (PatchEvent.inject (0x1402BBB20 + 3) (material_pool + 8))
        let st := st.patch (PatchEvent.inject (0x1402BBB6F + 3) (material_pool + 8))
        let st := st.patch (PatchEvent.inject (0x1402BF42A + 3) (material_pool + 8))
        let st := st.patch (PatchEvent.set 0x1402C6060 1 0xC3)
        let st := st.patch (PatchEvent.set 0x1402C6340 1 0xC3)
        let st := st.patch (PatchEvent.set 0x1402C5F90 1 0xC3)
        let st := st.patch (PatchEvent.set 0x14004EB80 1 0xC3)
        let st := st.patch (PatchEvent.inject_string 0x14004E279 "mp/defaultstringtable.csv")
        let st := st.patch (PatchEvent.set 0x140810CE8 4 0x2)
        let st := st.patch (PatchEvent.set (0x140810CE8 + 4) 4 0x100)
        let st := st.patch (PatchEvent.set (0x140810CE8 + 8) 4 0x100)
        let st := st.patch (PatchEvent.set (0x140810CE8 + 12) 4 0x100)
        let st := st.patch (PatchEvent.set 0x140810CF8 4 0x2)
        let st := st.patch (PatchEvent.set (0x140810CF8 + 4) 4 0x100)
        let st := st.patch (PatchEvent.set (0x140810CF8 + 8) 4 0x100)
        let st := st.patch (PatchEvent.set (0x140810CF8 + 12) 4 0x100)
        some st

/-- Whether an event is a pool copy. -/
def PatchEvent.isMemmove : PatchEvent → Bool
  | PatchEvent.memmove _ _ _ => true
  | _ => false

/-- Whether the 64-bit value stored at `r` is an address inside the backing
store of type `T`: a reference into the pool. -/
def points_into_pool (st : PoolState) (T r : Nat) : Prop :=
  st.g_assetPool T ≤ read_u64 st.mem r ∧
    read_u64 st.mem r < st.g_assetPool T + st.g_poolSize T * get_asset_type_size T

/-- A pool world with the enum values of the table (material 8, image 16,
localize entry 37), asserts compiled in and agreeing with the game. -/
def poolEnvT : PoolEnv :=
  { DB_GetXAssetTypeSize := get_asset_type_size, NDEBUG := false,
    new_pool := fun t size => 1000000 * (t + 1) + size,
    ASSET_TYPE_LOCALIZE_ENTRY := 37, ASSET_TYPE_IMAGE := 16, ASSET_TYPE_MATERIAL := 8 }

/-- A state whose localize pool (type 37, 16-byte elements) is at address 1000
with capacity 2 and whose memory holds byte `a % 251` at address `a`, except that
the 64-bit cell at address 5000 holds the address 1016 of slot 1 of that pool. -/
def poolState0 : PoolState :=
  { mem := fun a =>
      if a = 5000 then 248 else if a = 5001 then 3
      else if 5002 ≤ a ∧ a < 5008 then 0 else a % 251,
    g_assetPool := fun t => 1000 * (t - 36),
    g_poolSize := fun _ => 2,
    log := [] }

/-- A state whose localize pool has capacity 20. -/
def poolState20 : PoolState := { poolState0 with g_poolSize := fun _ => 20 }

/-- The condition under which the `assert` of `reallocate_asset_pool` lets the
call proceed: asserts are compiled out, or the table entry equals the game's
element size. -/
def assert_ok (E : PoolEnv) (T : Nat) : Prop :=
  E.NDEBUG = true ∨ get_asset_type_size T = E.DB_GetXAssetTypeSize T

/-! ## Export of an image as DDS (gfximage.cpp 339-387) -/

/-- The fields of `DirectX::TexMetadata` that `dump_image_dds` assigns; the
others stay zero. -/
structure TexMetadata where
  width : Nat
  height : Nat
  depth : Nat
  arraySize : Nat
  mipLevels : Nat
  miscFlags : Nat
  format : Nat
  dimension : Nat
deriving DecidableEq, Repr

/-- The enum value `DirectX::TEX_DIMENSION_TEXTURE2D` of the texture library. -/
def TEX_DIMENSION_TEXTURE2D : Nat := 3

/-- The enum value `DirectX::TEX_MISC_TEXTURECUBE` of the texture library. -/
def TEX_MISC_TEXTURECUBE : Nat := 4

/-- What `dump_image_dds` hands to the outside: the directory it creates and the
arguments of `DirectX::SaveToDDSFile`. -/
structure DdsDump where
  outdir : String
  faces : List DxImage
  metadata : TexMetadata
  ddsPath : String
deriving DecidableEq, Repr

/-- The shift `x >> m` of gfximage.cpp 352-353, where `x` is an `unsigned short`
promoted to a 32-bit `int` and `m` an `int`: for `m < 32` it is `x / 2^m`; for a
count of 32 or more, which C leaves undefined, it is what the shift instruction of
the x64 target gives, the count being taken modulo 32. -/
def shr_int (x m : Nat) : Nat := x >>> (m % 32)

/-- The body of the innermost loop of `dump_image_dds` (gfximage.cpp 350-360) for
mip level `m`; the state is the face list and the offset of `ptr` from
`pixelData`. -/
def dds_mip_step (D : DumpEnv) (image : Image) (st : List DxImage × Nat) (m : Nat) :
    List DxImage × Nat :=
  let width := shr_int image.hdr.width m
  let height := shr_int image.hdr.height m
  let pitch := D.ComputePitch image.hdr.imageFormat width height
  let I : DxImage :=
    { format := image.hdr.imageFormat, width := width, height := height,
      rowPitch := pitch.1, slicePitch := pitch.2,
      pixels := readBytes (image.pixels.drop st.2) pitch.2 }
  (st.1 ++ [I], st.2 + pitch.2)

/-- The loop over mip levels (gfximage.cpp 348) for one face. -/
def dds_face_step (D : DumpEnv) (image : Image) (st : List DxImage × Nat) (_f : Nat) :
    List DxImage × Nat :=
  (List.range image.hdr.levelCount).foldl (dds_mip_step D image) st

/-- The loop over faces (gfximage.cpp 346) for one element. -/
def dds_element_step (D : DumpEnv) (image : Image) (sides : Nat) (st : List DxImage × Nat)
    (_e : Nat) : List DxImage × Nat :=
  (List.range sides).foldl (dds_face_step D image) st

/-- Source `dump_image_dds` (gfximage.cpp 339-387). -/
def dump_image_dds (E : Env) (D : DumpEnv) (image : Image) : DdsDump :=
  let sides := if image.hdr.mapType = E.MAPTYPE_CUBE then 6 else 1
  let faces :=
    ((List.range image.hdr.numElements).foldl (dds_element_step D image sides) ([], 0)).1
  let metadata : TexMetadata :=
    { width := image.hdr.width, height := image.hdr.height, depth := image.hdr.depth,
      arraySize := image.hdr.numElements * sides, mipLevels := image.hdr.levelCount,
      format := image.hdr.imageFormat,
      miscFlags := if image.hdr.mapType = E.MAPTYPE_CUBE then TEX_MISC_TEXTURECUBE else 0,
      dimension :=
        if image.hdr.mapType = E.MAPTYPE_CUBE then TEX_DIMENSION_TEXTURE2D
        else image.hdr.mapType }
  let outdir := D.get_dump_path ++ "images\\"
  { outdir := outdir, faces := faces, metadata := metadata,
    ddsPath := outdir ++ clean_name image.nameStr ++ ".dds" }

/-- Format, width and height of a face. -/
def DxImage.shape (I : DxImage) : Nat × Nat × Nat := (I.format, I.width, I.height)

/-- A cube map of 2 elements and 3 mip levels, 8x4 at the top level. -/
def imgCube : Image :=
  { hdr := { GfxImage.zero with
      imageFormat := 28, mapType := 5, width := 8, height := 4, depth := 1, numElements := 2,
      levelCount := 3, pixelData := 9000 },
    nameStr := "*cube", pixels := [] }

/-- An 8x4 image with 33 mip levels. -/
def imgDeep : Image :=
  { hdr := { GfxImage.zero with
      imageFormat := 28, mapType := 3, width := 8, height := 4, depth := 1, numElements := 1,
      levelCount := 33, pixelData := 9000 },
    nameStr := "deep", pixels := [] }

/-! ## Concrete decoded textures -/

/-- A decoded 16384x8192 texture of 16 bytes per pixel: its pixel buffer is
`2^31` bytes long. -/
def scratchHuge : ScratchImage :=
  { format := 2, dimension := 3, width := 16384, height := 8192, depth := 1, arraySize := 1,
    mipLevels := 1, isCubemap := false, pixels := [], pixelsSize := 2 ^ 31 }

/-- An environment whose only external source is `images\sky.tga`, decoding to
`scratchHuge`. -/
def envHuge : Env :=
  { envT with
    fs_file_exists := fun p => decide (p = "images\\sky.tga")
    LoadFromTGAFile := fun _ => some scratchHuge }

/-- A decoded array of two cube maps (twelve faces) with three mip levels. -/
def scratchCube : ScratchImage :=
  { format := 61, dimension := 3, width := 1, height := 1, depth := 1, arraySize := 12,
    mipLevels := 3, isCubemap := true, pixels := [1, 2, 3], pixelsSize := 3 }

/-- An environment whose only external source is `images\sky.dds`, decoding to
`scratchCube`. -/
def envCube : Env :=
  { envT with
    fs_file_exists := fun p => decide (p = "images\\sky.dds")
    LoadFromDDSFile := fun _ => some scratchCube }

/-- A decoded 2D array of three slices. -/
def scratchArray : ScratchImage :=
  { format := 61, dimension := 3, width := 1, height := 1, depth := 1, arraySize := 3,
    mipLevels := 1, isCubemap := false, pixels := [1, 2, 3], pixelsSize := 3 }

/-- An environment whose only external source is `images\sky.png`, decoding to
`scratchArray`. -/
def envArray : Env :=
  { envT with
    fs_file_exists := fun p => decide (p = "images\\sky.png")
    LoadFromWICFile := fun _ => some scratchArray }

/-! ## Archive chunks (zonetool.cpp 130-141, 221-231) -/

/-- Source constant `CHUNK_SIZE` (zonetool.cpp 133). -/
def CHUNK_SIZE : Nat := 10

/-- Source `total_chunks` (zonetool.cpp 134) for `n = zones.size()`, in 64-bit
unsigned arithmetic. -/
def total_chunks (n : Nat) : Nat := ((n + CHUNK_SIZE - 1) % 2 ^ 64) / CHUNK_SIZE

/-- Source `start_idx` (zonetool.cpp 140). -/
def chunk_start_idx (chunk_idx : Nat) : Nat := (chunk_idx * CHUNK_SIZE) % 2 ^ 64

/-- Source `end_idx` (zonetool.cpp 141). -/
def chunk_end_idx (n chunk_idx : Nat) : Nat :=
  min ((chunk_start_idx chunk_idx + CHUNK_SIZE) % 2 ^ 64) n

/-- The conversion `%03zu` of `printf`: the decimal digits of `m`, with zeros in
front up to a width of three. -/
def zero_pad3 (m : Nat) : String :=
  String.mk (List.replicate (3 - (toString m).length) '0') ++ toString m

/-- What `snprintf(buf, size, ...)` leaves in `buf` for the formatted text `s`:
at most `size - 1` characters. -/
def snprintf (size : Nat) (s : String) : String := String.mk (s.data.take (size - 1))

/-- Source `chunk_filename` (zonetool.cpp 222-223): a buffer of 32 bytes filled by
`snprintf` with `file_structure_%03zu.json` for `chunk_idx + 1`. -/
def chunk_filename (chunk_idx : Nat) : String :=
  snprintf 32 ("file_structure_" ++ zero_pad3 ((chunk_idx + 1) % 2 ^ 64) ++ ".json")

/-- The chunk loop of `batchdumpzonewalkarchive` (zonetool.cpp 138-237) over the
zone list as it is after `std::sort` (line 131): for each chunk, in order, the
file name and the text handed to the chunk file. -/
def archive_chunks (W : ArchiveEnv) (zones : List String) : List (String × String) :=
  (List.range (total_chunks zones.length)).map (fun chunk_idx =>
    (chunk_filename chunk_idx,
      chunk_json W zones (chunk_start_idx chunk_idx) (chunk_end_idx zones.length chunk_idx)))

/-! ## Escaping in the words of the claim -/

/-- The replacement of every `c` by the two characters `a`, `b`, all other
characters kept in place. -/
def replace_each (c a b : Char) : List Char → List Char
  | [] => []
  | x :: tl => if x = c then a :: b :: replace_each c a b tl else x :: replace_each c a b tl

/-- The escape of one character: a backslash becomes two backslashes, a double
quote becomes backslash and double quote, any other character stays. -/
def escape_char (x : Char) : List Char :=
  if x = Char.ofNat 92 then [Char.ofNat 92, Char.ofNat 92]
  else if x = Char.ofNat 34 then [Char.ofNat 92, Char.ofNat 34]
  else [x]

/-- The escape of a text, character by character and in order. -/
def escape_chars : List Char → List Char
  | [] => []
  | x :: tl => escape_char x ++ escape_chars tl

/-- Decoding with the JSON rules for the escapes `\\` and `\"`: a backslash
stands for the character that follows it. -/
def json_unescape : List Char → List Char
  | [] => []
  | x :: tl =>
    if x = Char.ofNat 92 then
      match tl with
      | [] => [x]
      | d :: rest => d :: json_unescape rest
    else x :: json_unescape tl

/-- Whether a text holds a double quote that no backslash escapes. -/
def has_bare_quote : List Char → Bool
  | [] => false
  | x :: tl =>
    if x = Char.ofNat 92 then
      match tl with
      | [] => false
      | _ :: rest => has_bare_quote rest
    else if x = Char.ofNat 34 then true
    else has_bare_quote tl

/-! ## Auxiliary lemmas -/

theorem streamSize_append (ssz : Nat) (s : XFILE_BLOCK) (d e : List (XFILE_BLOCK × Item)) :
    streamSize ssz s (d ++ e) = streamSize ssz s d + streamSize ssz s e := by
  simp [streamSize, List.filter_append, List.map_append, List.sum_append]

theorem streamSize_cons (ssz : Nat) (s t : XFILE_BLOCK) (it : Item)
    (d : List (XFILE_BLOCK × Item)) :
    streamSize ssz s ((t, it) :: d) = (if t = s then it.size ssz else 0) + streamSize ssz s d := by
  by_cases h : t = s <;> simp [streamSize, List.filter_cons, h]

theorem streamSize_nil (ssz : Nat) (s : XFILE_BLOCK) : streamSize ssz s [] = 0 := by
  simp [streamSize]

theorem modify_at_length {α : Type} (f : α → α) (l : List α) (x : α) (r : List α) :
    List.modify f l.length (l ++ x :: r) = l ++ f x :: r := by
  induction l with
  | nil => rfl
  | cons a l ih => simpa [List.modify_succ_cons] using ih

theorem write_streamfiles_eq (files : List Nat) (b : zone_buffer) (i n : Nat) :
    write_streamfiles files b i n =
      { b with
        files := b.files ++ (List.range n).map (fun j => files.getD (i + j) 0)
        trace := b.trace ++
          (List.range n).map (fun j => Call.write_streamfile (files.getD (i + j) 0)) } := by
  induction n generalizing b i with
  | zero => simp [write_streamfiles]
  | succ n ih =>
    simp only [write_streamfiles, ih, zone_buffer.write_streamfile, zone_buffer.note]
    simp [List.range_succ_eq_map, Nat.add_assoc, Nat.add_comm 1, Function.comp_def]

/-- Closed form of `gfx_image::write` on a non-null asset. -/
theorem write_closed_form (E : Env) (self : gfx_image) (img : Image) (buf : zone_buffer)
    (ha : self.asset_ = some img) :
    self.write E buf = some
      { cur := buf.cur, saved := buf.saved,
        data := buf.data ++ (buf.cur, Item.struct (buffer_copy E img buf)) ::
          (XFILE_BLOCK_VIRTUAL, Item.str self.name_) ::
          (if img.hdr.pixelData ≠ 0 then
            [(XFILE_BLOCK_TEMP, Item.pad (zone_buffer.padding 3 (temp_offset E buf))),
             (XFILE_BLOCK_TEMP, Item.bytes (payload img))]
           else []),
        files := buf.files ++ (if img.hdr.streamed then stream_handles self else []),
        trace := buf.trace ++
          ([Call.write, Call.push_stream XFILE_BLOCK_VIRTUAL, Call.write_str self.name_,
            Call.push_stream XFILE_BLOCK_TEMP] ++
           (if img.hdr.pixelData ≠ 0 then
             [Call.align 3, Call.write_stream (toSizeT img.hdr.dataLen1), Call.clear_pointer]
            else []) ++
           [Call.pop_stream XFILE_BLOCK_TEMP, Call.pop_stream XFILE_BLOCK_VIRTUAL] ++
           (if img.hdr.streamed then (stream_handles self).map Call.write_streamfile else [])) } := by
  unfold gfx_image.write
  simp only [ha]
  by_cases hp : img.hdr.pixelData = 0 <;> by_cases hs : img.hdr.streamed = true <;>
    simp [zone_buffer.write, zone_buffer.push_stream, zone_buffer.write_str, zone_buffer.emit,
      zone_buffer.note, zone_buffer.modify, zone_buffer.align, zone_buffer.write_stream,
      zone_buffer.clear_pointer, zone_buffer.pop_stream, zone_buffer.offset, hp, hs,
      write_streamfiles_eq, modify_at_length, zone_buffer.onStruct, streamSize_append, streamSize_cons,
      streamSize_nil, buffer_copy, name_marker, temp_offset, payload, stream_handles, Item.size]

theorem padding_aligns (off : Nat) : (off + zone_buffer.padding 3 off) % 8 = 0 := by
  unfold zone_buffer.padding
  norm_num
  omega

theorem padding_lt (off : Nat) : zone_buffer.padding 3 off < 8 := by
  unfold zone_buffer.padding
  norm_num
  omega

theorem readBytes_length (src : List Nat) (count : Nat) : (readBytes src count).length = count := by
  simp [readBytes]

/-! ## The writer: stream discipline, alignment, pointer clearing, stream files -/

/-- C5: on a non-null asset `gfx_image::write` succeeds for every buffer state
(so `pop_stream` never meets an empty stack), its stream calls are push VIRTUAL,
push TEMP, pop (leaving TEMP), pop (leaving VIRTUAL) on both paths, every string
it writes is the name and lands in the VIRTUAL stream, every byte array it writes
lands in the TEMP stream, and the active stream and the stack of suspended
streams at return equal those at entry. -/
theorem write_stream_stack_balanced (E : Env) (self : gfx_image) (img : Image)
    (buf : zone_buffer) (ha : self.asset_ = some img) :
    ∃ buf', self.write E buf = some buf' ∧
      buf'.cur = buf.cur ∧ buf'.saved = buf.saved ∧
      (new_calls buf buf').filter Call.isStreamOp =
        [Call.push_stream XFILE_BLOCK_VIRTUAL, Call.push_stream XFILE_BLOCK_TEMP,
         Call.pop_stream XFILE_BLOCK_TEMP, Call.pop_stream XFILE_BLOCK_VIRTUAL] ∧
      (XFILE_BLOCK_VIRTUAL, Item.str self.name_) ∈ buf'.data.drop buf.data.length ∧
      (img.hdr.pixelData ≠ 0 →
        (XFILE_BLOCK_TEMP, Item.bytes (payload img)) ∈ buf'.data.drop buf.data.length) ∧
      (∀ e ∈ buf'.data.drop buf.data.length,
        (e.2.kind = Kind.str → e = (XFILE_BLOCK_VIRTUAL, Item.str self.name_)) ∧
        (e.2.kind = Kind.bytes → e = (XFILE_BLOCK_TEMP, Item.bytes (payload img)))) := by
  refine ⟨_, write_closed_form E self img buf ha, rfl, rfl, ?_, ?_, ?_, ?_⟩
  · by_cases hp : img.hdr.pixelData = 0 <;> by_cases hs : img.hdr.streamed = true <;>
      simp [new_calls, hp, hs, Call.isStreamOp, stream_handles, List.filter_cons, List.range_succ]
  · simp
  · intro hp
    simp [hp]
  · intro e he
    by_cases hp : img.hdr.pixelData = 0
    · simp [hp] at he
      rcases he with he | he <;> subst he <;> simp [Item.kind]
    · simp [hp] at he
      rcases he with he | he | he | he <;> subst he <;> simp [Item.kind]

/-- Witness of C5 on a streamed image with four pixel bytes. -/
theorem write_stream_stack_balanced_witness :
    selfPix.asset_ = some imgPix ∧
    ∃ buf', selfPix.write envT buf0 = some buf' ∧
      buf'.cur = buf0.cur ∧ buf'.saved = buf0.saved ∧
      (new_calls buf0 buf').filter Call.isStreamOp =
        [Call.push_stream XFILE_BLOCK_VIRTUAL, Call.push_stream XFILE_BLOCK_TEMP,
         Call.pop_stream XFILE_BLOCK_TEMP, Call.pop_stream XFILE_BLOCK_VIRTUAL] ∧
      (XFILE_BLOCK_VIRTUAL, Item.str selfPix.name_) ∈ buf'.data.drop buf0.data.length ∧
      (imgPix.hdr.pixelData ≠ 0 →
        (XFILE_BLOCK_TEMP, Item.bytes (payload imgPix)) ∈ buf'.data.drop buf0.data.length) ∧
      (∀ e ∈ buf'.data.drop buf0.data.length,
        (e.2.kind = Kind.str → e = (XFILE_BLOCK_VIRTUAL, Item.str selfPix.name_)) ∧
        (e.2.kind = Kind.bytes → e = (XFILE_BLOCK_TEMP, Item.bytes (payload imgPix)))) :=
  ⟨rfl, write_stream_stack_balanced envT selfPix imgPix buf0 rfl⟩

/-- C6: when `pixelData` is non-null, `gfx_image::write` calls `align(3)`
immediately before `write_stream`, the last two entries of the buffer are the
padding and the `dataLen1` payload bytes, both in the TEMP stream, the TEMP
offset at which the payload begins is a multiple of 8 and includes the padding
(fewer than 8 bytes); when `pixelData` is null no padding, no payload and no
`align` or `write_stream` call is made. -/
theorem write_payload_aligned (E : Env) (self : gfx_image) (img : Image)
    (buf : zone_buffer) (ha : self.asset_ = some img) :
    ∃ buf', self.write E buf = some buf' ∧
      (img.hdr.pixelData ≠ 0 →
        ∃ pre p c1 c2,
          buf'.data = pre ++ [(XFILE_BLOCK_TEMP, Item.pad p),
            (XFILE_BLOCK_TEMP, Item.bytes (payload img))] ∧
          (payload img).length = toSizeT img.hdr.dataLen1 ∧
          streamSize E.sizeof_GfxImage XFILE_BLOCK_TEMP (pre ++ [(XFILE_BLOCK_TEMP, Item.pad p)])
            % 8 = 0 ∧
          streamSize E.sizeof_GfxImage XFILE_BLOCK_TEMP (pre ++ [(XFILE_BLOCK_TEMP, Item.pad p)])
            = streamSize E.sizeof_GfxImage XFILE_BLOCK_TEMP pre + p ∧
          p < 8 ∧
          buf'.offset E.sizeof_GfxImage XFILE_BLOCK_TEMP =
            streamSize E.sizeof_GfxImage XFILE_BLOCK_TEMP pre + p + toSizeT img.hdr.dataLen1 ∧
          new_calls buf buf' =
            c1 ++ Call.align 3 :: Call.write_stream (toSizeT img.hdr.dataLen1) :: c2) ∧
      (img.hdr.pixelData = 0 →
        (∀ e ∈ buf'.data.drop buf.data.length, e.2.kind ≠ Kind.pad ∧ e.2.kind ≠ Kind.bytes) ∧
        (∀ c ∈ new_calls buf buf', (∀ k, c ≠ Call.align k) ∧ (∀ n, c ≠ Call.write_stream n))) := by
  refine ⟨_, write_closed_form E self img buf ha, ?_, ?_⟩
  · intro hp
    refine ⟨buf.data ++ [(buf.cur, Item.struct (buffer_copy E img buf)),
        (XFILE_BLOCK_VIRTUAL, Item.str self.name_)],
      zone_buffer.padding 3 (temp_offset E buf),
      [Call.write, Call.push_stream XFILE_BLOCK_VIRTUAL, Call.write_str self.name_,
        Call.push_stream XFILE_BLOCK_TEMP],
      Call.clear_pointer :: Call.pop_stream XFILE_BLOCK_TEMP ::
        Call.pop_stream XFILE_BLOCK_VIRTUAL ::
        (if img.hdr.streamed then (stream_handles self).map Call.write_streamfile else []),
      ?_, ?_, ?_, ?_, ?_, ?_, ?_⟩
    · simp [hp]
    · simp [payload, readBytes_length]
    · have h := padding_aligns (temp_offset E buf)
      simpa [streamSize_append, streamSize_cons, streamSize_nil, Item.size, temp_offset,
        Nat.add_assoc] using h
    · simp [streamSize_append, streamSize_cons, streamSize_nil, Item.size, Nat.add_assoc]
    · exact padding_lt _
    · simp [zone_buffer.offset, hp, streamSize_append, streamSize_cons, streamSize_nil, Item.size,
        payload, readBytes_length, Nat.add_assoc]
    · simp [new_calls, hp]
  · intro hp
    refine ⟨?_, ?_⟩
    · intro e he
      simp [hp] at he
      rcases he with he | he <;> subst he <;> simp [Item.kind]
    · intro c hc
      by_cases hs : img.hdr.streamed = true <;> simp [new_calls, hp, hs, stream_handles] at hc
      · rcases hc with hc | hc | hc | hc | hc | hc | ⟨a, _, hc⟩ <;> subst hc <;> simp
      · rcases hc with hc | hc | hc | hc | hc | hc <;> subst hc <;> simp

/-- Witness of C6: the image with four pixel bytes written to a buffer whose
temp stream already holds three bytes. -/
theorem write_payload_aligned_witness :
    selfPix.asset_ = some imgPix ∧ imgPix.hdr.pixelData ≠ 0 ∧
    ∃ buf', selfPix.write envT buf3 = some buf' ∧
      ∃ pre p, buf'.data = pre ++ [(XFILE_BLOCK_TEMP, Item.pad p),
          (XFILE_BLOCK_TEMP, Item.bytes (payload imgPix))] ∧
        streamSize envT.sizeof_GfxImage XFILE_BLOCK_TEMP (pre ++ [(XFILE_BLOCK_TEMP, Item.pad p)])
          % 8 = 0 :=
  ⟨rfl, by decide,
    (write_payload_aligned envT selfPix imgPix buf3 rfl).imp (fun _ h =>
      ⟨h.1, (h.2.1 (by decide)).imp (fun _ hp => hp.imp (fun _ hq =>
        match hq with
        | ⟨_, _, h1, _, h3, _⟩ => ⟨h1, h3⟩))⟩)⟩

/-- C7: when `gfx_image::write` returns, the struct copy it left in the buffer
(at the position of its write handle) has `pixelData` equal to raw zero and agrees
with the source struct on every field other than `name` and `pixelData`; the
entries that were in the buffer before are untouched; when the source `pixelData`
is non-null the single `clear_pointer` call comes right after `write_stream`.
The source asset is an input of the model only, so it is not modified. -/
theorem write_clears_pixelData_copy (E : Env) (self : gfx_image) (img : Image)
    (buf : zone_buffer) (ha : self.asset_ = some img) :
    ∃ buf' g, self.write E buf = some buf' ∧
      buf'.data.get? buf.data.length = some (buf.cur, Item.struct g) ∧
      g.pixelData = 0 ∧ g.nonptr = img.hdr.nonptr ∧
      buf'.data.take buf.data.length = buf.data ∧
      (img.hdr.pixelData ≠ 0 →
        ∃ c1 c2, new_calls buf buf' =
            c1 ++ Call.write_stream (toSizeT img.hdr.dataLen1) :: Call.clear_pointer :: c2 ∧
          Call.clear_pointer ∉ c1 ∧ Call.clear_pointer ∉ c2) ∧
      (img.hdr.pixelData = 0 → Call.clear_pointer ∉ new_calls buf buf') := by
  refine ⟨_, buffer_copy E img buf, write_closed_form E self img buf ha, ?_, rfl, ?_, ?_, ?_, ?_⟩
  · rw [List.get?_eq_getElem?, List.getElem?_append_right (Nat.le_refl _)]
    simp
  · simp [GfxImage.nonptr, buffer_copy]
  · simp
  · intro hp
    refine ⟨[Call.write, Call.push_stream XFILE_BLOCK_VIRTUAL, Call.write_str self.name_,
        Call.push_stream XFILE_BLOCK_TEMP, Call.align 3],
      Call.pop_stream XFILE_BLOCK_TEMP :: Call.pop_stream XFILE_BLOCK_VIRTUAL ::
        (if img.hdr.streamed then (stream_handles self).map Call.write_streamfile else []),
      ?_, ?_, ?_⟩
    · simp [new_calls, hp]
    · simp
    · by_cases hs : img.hdr.streamed = true <;> simp [hs]
  · intro hp
    by_cases hs : img.hdr.streamed = true <;> simp [new_calls, hp, hs]

/-- Witness of C7 on the image with four pixel bytes. -/
theorem write_clears_pixelData_copy_witness :
    selfPix.asset_ = some imgPix ∧
    ∃ buf' g, selfPix.write envT buf3 = some buf' ∧
      buf'.data.get? buf3.data.length = some (buf3.cur, Item.struct g) ∧ g.pixelData = 0 :=
  ⟨rfl, (write_clears_pixelData_copy envT selfPix imgPix buf3 rfl).imp (fun _ h =>
    h.imp (fun _ hg => ⟨hg.1, hg.2.1, hg.2.2.1⟩))⟩

/-- C8: `gfx_image::write` appends to the stream-file records exactly the four
handles `image_stream_files[0..3]`, in that order, when the image is streamed and
nothing when it is not; the `write_streamfile` calls are the last calls, right
after the two pops; and the entries added to the stream data are the struct copy,
the name and (for non-null `pixelData`) padding and pixel payload, whatever
`streamed` is: no stream-block bytes are inlined. -/
theorem write_streamfile_records (E : Env) (self : gfx_image) (img : Image)
    (buf : zone_buffer) (ha : self.asset_ = some img) :
    ∃ buf', self.write E buf = some buf' ∧
      buf'.files = buf.files ++
        (if img.hdr.streamed then
          [self.image_stream_files.getD 0 0, self.image_stream_files.getD 1 0,
           self.image_stream_files.getD 2 0, self.image_stream_files.getD 3 0]
         else []) ∧
      (∃ pre, new_calls buf buf' =
          pre ++ [Call.pop_stream XFILE_BLOCK_TEMP, Call.pop_stream XFILE_BLOCK_VIRTUAL] ++
            (if img.hdr.streamed then
              [Call.write_streamfile (self.image_stream_files.getD 0 0),
               Call.write_streamfile (self.image_stream_files.getD 1 0),
               Call.write_streamfile (self.image_stream_files.getD 2 0),
               Call.write_streamfile (self.image_stream_files.getD 3 0)]
             else []) ∧
          ∀ c ∈ pre, c.isStreamFile = false) ∧
      buf'.data.drop buf.data.length =
        (buf.cur, Item.struct (buffer_copy E img buf)) ::
        (XFILE_BLOCK_VIRTUAL, Item.str self.name_) ::
        (if img.hdr.pixelData ≠ 0 then
          [(XFILE_BLOCK_TEMP, Item.pad (zone_buffer.padding 3 (temp_offset E buf))),
           (XFILE_BLOCK_TEMP, Item.bytes (payload img))]
         else []) := by
  refine ⟨_, write_closed_form E self img buf ha, ?_, ?_, ?_⟩
  · by_cases hs : img.hdr.streamed = true <;> simp [hs, stream_handles, List.range_succ]
  · refine ⟨[Call.write, Call.push_stream XFILE_BLOCK_VIRTUAL, Call.write_str self.name_,
        Call.push_stream XFILE_BLOCK_TEMP] ++
        (if img.hdr.pixelData ≠ 0 then
          [Call.align 3, Call.write_stream (toSizeT img.hdr.dataLen1), Call.clear_pointer]
         else []), ?_, ?_⟩
    · by_cases hs : img.hdr.streamed = true <;>
        simp [new_calls, hs, stream_handles, List.range_succ]
    · intro c hc
      by_cases hp : img.hdr.pixelData = 0 <;> simp [hp] at hc
      · rcases hc with hc | hc | hc | hc <;> subst hc <;> rfl
      · rcases hc with hc | hc | hc | hc | hc | hc | hc <;> subst hc <;> rfl
  · simp

/-- Witness of C8 on a streamed image. -/
theorem write_streamfile_records_witness :
    selfPix.asset_ = some imgPix ∧
    ∃ buf', selfPix.write envT buf0 = some buf' ∧
      buf'.files = buf0.files ++
        (if imgPix.hdr.streamed then
          [selfPix.image_stream_files.getD 0 0, selfPix.image_stream_files.getD 1 0,
           selfPix.image_stream_files.getD 2 0, selfPix.image_stream_files.getD 3 0]
         else []) :=
  ⟨rfl, (write_streamfile_records envT selfPix imgPix buf0 rfl).imp (fun _ h => ⟨h.1, h.2.1⟩)⟩

/-- C9: `gfx_image::write` is a function of the name, the non-pointer fields,
the pixel bytes it copies (or the common nullness of `pixelData`), the four
stream-file handles and the starting buffer: two asset objects that agree on
these leave identical buffers, whatever addresses their `name` and `pixelData`
fields hold. -/
theorem write_address_independent (E : Env) (s1 s2 : gfx_image) (i1 i2 : Image)
    (buf : zone_buffer) (h1 : s1.asset_ = some i1) (h2 : s2.asset_ = some i2)
    (hname : s1.name_ = s2.name_) (hfields : i1.hdr.nonptr = i2.hdr.nonptr)
    (hpix : (i1.hdr.pixelData = 0 ∧ i2.hdr.pixelData = 0) ∨
      (i1.hdr.pixelData ≠ 0 ∧ i2.hdr.pixelData ≠ 0 ∧ payload i1 = payload i2))
    (hfiles : ∀ i, i < 4 → s1.image_stream_files.getD i 0 = s2.image_stream_files.getD i 0) :
    s1.write E buf = s2.write E buf ∧ ∃ buf', s1.write E buf = some buf' := by
  have hh : stream_handles s1 = stream_handles s2 := by
    unfold stream_handles
    apply List.map_congr_left
    intro i hi
    exact hfiles i (by simpa using hi)
  have hc : buffer_copy E i1 buf = buffer_copy E i2 buf := by
    have := hfields
    simp only [GfxImage.nonptr, GfxImage.mk.injEq] at this
    simp [buffer_copy, this]
  have hd : i1.hdr.dataLen1 = i2.hdr.dataLen1 := by
    have := congrArg GfxImage.dataLen1 hfields
    simpa [GfxImage.nonptr] using this
  have hs : i1.hdr.streamed = i2.hdr.streamed := by
    have := congrArg GfxImage.streamed hfields
    simpa [GfxImage.nonptr] using this
  refine ⟨?_, _, write_closed_form E s1 i1 buf h1⟩
  rw [write_closed_form E s1 i1 buf h1, write_closed_form E s2 i2 buf h2, hc, hname, hh, hd, hs]
  rcases hpix with ⟨a, b⟩ | ⟨a, b, c⟩
  · simp [a, b]
  · simp [a, b, c]

/-- Witness of C9: the same image held at different addresses. -/
theorem write_address_independent_witness :
    selfPix.asset_ = some imgPix ∧ selfPixMoved.asset_ = some imgPixMoved ∧
    imgPix.hdr.name ≠ imgPixMoved.hdr.name ∧ imgPix.hdr.pixelData ≠ imgPixMoved.hdr.pixelData ∧
    selfPix.write envT buf3 = selfPixMoved.write envT buf3 :=
  ⟨rfl, rfl, by decide, by decide,
    (write_address_independent envT selfPix selfPixMoved imgPix imgPixMoved buf3 rfl rfl rfl rfl
      (Or.inr ⟨by decide, by decide, by decide⟩) (fun _ _ => rfl)).1⟩

/-! ## Writer against reader -/

/-- The data items `gfx_image::write` emits, in emission order. -/
theorem emitted_write (E : Env) (self : gfx_image) (img : Image) (buf buf' : zone_buffer)
    (ha : self.asset_ = some img) (hw : self.write E buf = some buf') :
    emitted buf buf' = Item.struct (buffer_copy E img buf) :: Item.str self.name_ ::
      (if img.hdr.pixelData ≠ 0 then [Item.bytes (payload img)] else []) := by
  rw [write_closed_form E self img buf ha] at hw
  cases hw
  by_cases hp : img.hdr.pixelData = 0 <;> simp [emitted, hp, Item.isPad]

/-- What `gfx_image::parse` reads from a blob that starts with a struct whose
`pixelData` is null followed by a string: it stops after the string. -/
theorem parse_read_null_pixelData (E : Env) (c : GfxImage) (n : String) (tail : List Item)
    (mem : zone_memory) (hc : c.pixelData = 0) :
    gfx_image.parse_read E { items := Item.struct c :: Item.str n :: tail } mem =
      Except.ok
        ({ hdr := { c with name := ((mem.allocate E.sizeof_GfxImage).2.duplicate_string n).1 },
           nameStr := n, pixels := [] },
         { items := tail }, ((mem.allocate E.sizeof_GfxImage).2.duplicate_string n).2) := by
  simp [gfx_image.parse_read, reader.read_single, reader.read_string, hc]

theorem kind_str (it : Item) (h : it.kind = Kind.str) : ∃ t, it = Item.str t := by
  cases it <;> simp [Item.kind] at h
  exact ⟨_, rfl⟩

theorem kind_bytes (it : Item) (h : it.kind = Kind.bytes) : ∃ b, it = Item.bytes b := by
  cases it <;> simp [Item.kind] at h
  exact ⟨_, rfl⟩

/-- C1: for a name that is not referenced, `gfx_image::init` is the chain
discipline run over `parse`, `parse_streamed_image`, `parse_custom` in that
order with the default image as fallback: `asset_` is the result of the first
step that returns non-null, the object and the arena are left as that step left
them (no later step has run), and the default image is synthesized only when all
three steps returned null. -/
theorem init_fallback_chain (E : Env) (self : gfx_image) (name : String) (mem : zone_memory)
    (href : E.referenced name = false) :
    self.init E name mem =
        store_asset (run_chain (image_default E name) (image_chain E name)
          ({ self with name_ := name }, mem)) ∧
      (∀ i m1, gfx_image.parse E name mem = Except.ok (some i, m1) →
        self.init E name mem =
          Except.ok ({ self with name_ := name, asset_ := some i }, m1)) ∧
      (∀ m1 s g2 m2, gfx_image.parse E name mem = Except.ok (none, m1) →
        gfx_image.parse_streamed_image E { self with name_ := name } name m1
          = Except.ok (some s, g2, m2) →
        self.init E name mem = Except.ok ({ g2 with asset_ := some s }, m2)) ∧
      (∀ m1 g2 m2 c g3 m3, gfx_image.parse E name mem = Except.ok (none, m1) →
        gfx_image.parse_streamed_image E { self with name_ := name } name m1
          = Except.ok (none, g2, m2) →
        g2.parse_custom E name m2 = (some c, g3, m3) →
        self.init E name mem = Except.ok ({ g3 with asset_ := some c }, m3)) ∧
      (∀ m1 g2 m2 g3 m3, gfx_image.parse E name mem = Except.ok (none, m1) →
        gfx_image.parse_streamed_image E { self with name_ := name } name m1
          = Except.ok (none, g2, m2) →
        g2.parse_custom E name m2 = (none, g3, m3) →
        self.init E name mem =
          Except.ok ({ g3 with asset_ := some (default_image E name m3).1 },
            (default_image E name m3).2)) := by
  refine ⟨?_, ?_, ?_, ?_, ?_⟩
  · simp only [gfx_image.init, href, image_chain, run_chain, image_default, store_asset]
    cases h1 : gfx_image.parse E name mem with
    | error e => simp
    | ok r1 =>
      obtain ⟨o1, m1⟩ := r1
      cases o1 with
      | some i => simp
      | none =>
        simp only []
        cases h2 : gfx_image.parse_streamed_image E { self with name_ := name } name m1 with
        | error e => simp
        | ok r2 =>
          obtain ⟨o2, g2, m2⟩ := r2
          cases o2 with
          | some s => simp
          | none =>
            simp only []
            cases h3 : g2.parse_custom E name m2 with
            | mk o3 r3 =>
              obtain ⟨g3, m3⟩ := r3
              cases o3 <;> simp
  · intro i m1 h1
    simp [gfx_image.init, href, h1]
  · intro m1 s g2 m2 h1 h2
    simp [gfx_image.init, href, h1, h2]
  · intro m1 g2 m2 c g3 m3 h1 h2 h3
    simp [gfx_image.init, href, h1, h2, h3]
  · intro m1 g2 m2 g3 m3 h1 h2 h3
    simp [gfx_image.init, href, h1, h2, h3]

/-- Witness of C1: a name that is not referenced and has no source at all. -/
theorem init_fallback_chain_witness :
    envT.referenced "sky" = false ∧
    self0.init envT "sky" { next := 64 } =
      store_asset (run_chain (image_default envT "sky") (image_chain envT "sky")
        ({ self0 with name_ := "sky" }, { next := 64 })) :=
  ⟨rfl, (init_fallback_chain envT self0 "sky" { next := 64 } rfl).1⟩

/-- C2, as the code has it: for a name that is not referenced and whose
canonical and legacy forms are both absent, `gfx_image::init` does not fail and
`asset_` is non-null; when `parse_custom` finds no external source either, the
asset is the default image, whose `name` and `pixelData` are non-null (the struct
has positive size and the static default pixel a non-null address); when
`parse_custom` returns an image, the asset is that image and not the default. -/
theorem init_absent_forms (E : Env) (self : gfx_image) (name : String) (mem : zone_memory)
    (href : E.referenced name = false)
    (hcanon : E.reader_open (E.get_file_path "" ++ "images\\" ++ clean_name name ++ ".dds")
      = none)
    (hlegacy : E.reader_open ("streamed_images\\" ++ clean_name name ++ ".h1Image") = none)
    (hsize : 0 < E.sizeof_GfxImage) (hdef : 0 < E.def_addr) :
    ∃ g m a, self.init E name mem = Except.ok (g, m) ∧ g.asset_ = some a ∧
      (∀ g3 m3, gfx_image.parse_custom E { self with name_ := name } name mem = (none, g3, m3) →
        a = (default_image E name m3).1 ∧ a.hdr.name ≠ 0 ∧ a.hdr.pixelData ≠ 0 ∧
          a.nameStr = name ∧ a.pixels = [255, 0, 0, 255]) ∧
      (∀ c g3 m3, gfx_image.parse_custom E { self with name_ := name } name mem
          = (some c, g3, m3) → a = c) := by
  have h1 : gfx_image.parse E name mem = Except.ok (none, mem) := by
    simp [gfx_image.parse, hcanon]
  have h2 : gfx_image.parse_streamed_image E { self with name_ := name } name mem
      = Except.ok (none, { self with name_ := name }, mem) := by
    simp [gfx_image.parse_streamed_image, hlegacy]
  cases h3 : gfx_image.parse_custom E { self with name_ := name } name mem with
  | mk o3 r3 =>
    obtain ⟨g3, m3⟩ := r3
    cases o3 with
    | some c =>
      have hinit : self.init E name mem = Except.ok ({ g3 with asset_ := some c }, m3) := by
        simp [gfx_image.init, href, h1, h2, h3]
      refine ⟨_, _, c, hinit, rfl, ?_, ?_⟩
      · intro g3' m3' h
        cases h
      · intro c' g3' m3' h
        cases h
        rfl
    | none =>
      have hinit : self.init E name mem =
          Except.ok ({ g3 with asset_ := some (default_image E name m3).1 },
            (default_image E name m3).2) := by
        simp [gfx_image.init, href, h1, h2, h3]
      refine ⟨_, _, _, hinit, rfl, ?_, ?_⟩
      · intro g3' m3' h
        cases h
        refine ⟨rfl, ?_, ?_, rfl, rfl⟩
        · simp [default_image, zone_memory.duplicate_string, zone_memory.allocate]
          omega
        · simp [default_image]
          omega
      · intro c' g3' m3' h
        cases h

/-- Witness of the amended C2: a name without any source gets the default image. -/
theorem init_absent_forms_witness :
    envT.referenced "sky" = false ∧
    envT.reader_open (envT.get_file_path "" ++ "images\\" ++ clean_name "sky" ++ ".dds")
      = none ∧
    envT.reader_open ("streamed_images\\" ++ clean_name "sky" ++ ".h1Image") = none ∧
    0 < envT.sizeof_GfxImage ∧ 0 < envT.def_addr ∧
    ∃ g m a, self0.init envT "sky" { next := 64 } = Except.ok (g, m) ∧ g.asset_ = some a :=
  ⟨rfl, rfl, rfl, by decide, by decide,
    (init_absent_forms envT self0 "sky" { next := 64 } rfl rfl rfl (by decide) (by decide)).imp
      (fun _ h => h.imp (fun _ h => h.imp (fun _ h => ⟨h.1, h.2.1⟩)))⟩

/-- C2 as stated fails in two ways.  A referenced name (here `,sky`) whose
canonical and legacy forms are absent gets the name-only stub, whose `pixelData`
is null.  A name that is not referenced, with both forms absent and an external
source `images\sky.tga`, gets the converted 2x2 texture and not the 1x1 default. -/
theorem init_absent_forms_not_default :
    (envT.reader_open (envT.get_file_path "" ++ "images\\" ++ clean_name ",sky" ++ ".dds")
        = none ∧
      envT.reader_open ("streamed_images\\" ++ clean_name ",sky" ++ ".h1Image") = none ∧
      ∃ g m a, self0.init envT ",sky" { next := 64 } = Except.ok (g, m) ∧
        g.asset_ = some a ∧ a.hdr.pixelData = 0) ∧
    (envTga.referenced "sky" = false ∧
      envTga.reader_open (envTga.get_file_path "" ++ "images\\" ++ clean_name "sky" ++ ".dds")
        = none ∧
      envTga.reader_open ("streamed_images\\" ++ clean_name "sky" ++ ".h1Image") = none ∧
      ∃ g m a, self0.init envTga "sky" { next := 64 } = Except.ok (g, m) ∧
        g.asset_ = some a ∧ a.hdr.width = 2 ∧ a.pixels = [9, 8, 7, 6] ∧
        (default_image envTga "sky" { next := 64 }).1.hdr.width = 1) :=
  ⟨⟨rfl, rfl, _, _, _, rfl, rfl, rfl⟩, ⟨rfl, rfl, rfl, _, _, _, rfl, rfl, rfl, rfl, rfl⟩⟩

theorem parse_streamed_image_name (E : Env) (self : gfx_image) (name : String)
    (mem : zone_memory) (r : Option Image) (g : gfx_image) (m : zone_memory)
    (h : self.parse_streamed_image E name mem = Except.ok (r, g, m)) : g.name_ = self.name_ := by
  unfold gfx_image.parse_streamed_image at h
  split at h
  · cases h; rfl
  · split at h
    · cases h
    · split at h
      · cases h
      · cases h; rfl

theorem parse_custom_name (E : Env) (self : gfx_image) (name : String) (mem : zone_memory) :
    (self.parse_custom E name mem).2.1.name_ = self.name_ := by
  unfold gfx_image.parse_custom
  split
  · rfl
  · split <;> rfl

/-- After a successful `init` the object carries the requested name and a
non-null asset. -/
theorem init_result (E : Env) (self : gfx_image) (name : String) (mem : zone_memory)
    (g : gfx_image) (m : zone_memory) (h : self.init E name mem = Except.ok (g, m)) :
    g.name_ = name ∧ ∃ a, g.asset_ = some a := by
  unfold gfx_image.init at h
  by_cases href : E.referenced name = true
  · simp [href] at h
    obtain ⟨h1, _⟩ := h
    subst h1
    exact ⟨rfl, _, rfl⟩
  · simp only [href] at h
    cases h1 : gfx_image.parse E name mem with
    | error e => simp [h1] at h
    | ok r1 =>
      obtain ⟨o1, m1⟩ := r1
      cases o1 with
      | some i =>
        simp [h1] at h
        obtain ⟨hg, _⟩ := h
        subst hg
        exact ⟨rfl, _, rfl⟩
      | none =>
        simp only [h1] at h
        cases h2 : gfx_image.parse_streamed_image E { self with name_ := name } name m1 with
        | error e => simp [h2] at h
        | ok r2 =>
          obtain ⟨o2, g2, m2⟩ := r2
          have hn2 : g2.name_ = name := parse_streamed_image_name E _ name m1 o2 g2 m2 h2
          cases o2 with
          | some s =>
            simp [h2] at h
            obtain ⟨hg, _⟩ := h
            subst hg
            exact ⟨hn2, _, rfl⟩
          | none =>
            simp only [h2] at h
            have hn3 := parse_custom_name E g2 name m2
            cases h3 : g2.parse_custom E name m2 with
            | mk o3 r3 =>
              obtain ⟨g3, m3⟩ := r3
              rw [h3] at hn3
              cases o3 with
              | some c =>
                simp [h3] at h
                obtain ⟨hg, _⟩ := h
                subst hg
                exact ⟨hn3.trans hn2, _, rfl⟩
              | none =>
                simp [h3] at h
                obtain ⟨hg, _⟩ := h
                subst hg
                exact ⟨hn3.trans hn2, _, rfl⟩

/-- C10: after `gfx_image::init(name, mem)` has returned, through whichever
branch, `name()` is `name`, `type()` is `ASSET_TYPE_IMAGE`, and for every buffer
`gfx_image::write` succeeds, the only string it emits is `name`, and reading the
emitted items back with `gfx_image::parse` yields the name string `name`. -/
theorem init_name_type_written (E : Env) (self : gfx_image) (name : String) (mem : zone_memory)
    (g : gfx_image) (m : zone_memory) (h : self.init E name mem = Except.ok (g, m)) :
    g.name = name ∧ gfx_image.type E g = E.ASSET_TYPE_IMAGE ∧
      ∀ buf, ∃ buf', g.write E buf = some buf' ∧
        (emitted buf buf').filter (fun it => decide (it.kind = Kind.str)) = [Item.str name] ∧
        (XFILE_BLOCK_VIRTUAL, Item.str name) ∈ buf'.data ∧
        ∀ mem2, ∃ res rd' mem', gfx_image.parse_read E { items := emitted buf buf' } mem2
          = Except.ok (res, rd', mem') ∧ res.nameStr = name := by
  obtain ⟨hn, a, ha⟩ := init_result E self name mem g m h
  refine ⟨hn, rfl, ?_⟩
  intro buf
  refine ⟨_, write_closed_form E g a buf ha, ?_, ?_, ?_⟩
  · rw [emitted_write E g a buf _ ha (write_closed_form E g a buf ha), hn]
    by_cases hp : a.hdr.pixelData = 0 <;> simp [hp, Item.kind]
  · simp [hn]
  · intro mem2
    rw [emitted_write E g a buf _ ha (write_closed_form E g a buf ha),
      parse_read_null_pixelData E (buffer_copy E a buf) g.name_ _ mem2 rfl]
    exact ⟨_, _, _, rfl, hn⟩

/-- Witness of C10: the default image of a name without any source. -/
theorem init_name_type_written_witness :
    self0.init envT "sky" { next := 64 }
      = Except.ok ({ self0 with name_ := "sky",
                                asset_ := some (default_image envT "sky" { next := 64 }).1 },
          { next := 172 }) ∧
    gfx_image.name { self0 with name_ := "sky",
                                asset_ := some (default_image envT "sky" { next := 64 }).1 }
      = "sky" :=
  ⟨rfl, (init_name_type_written envT self0 "sky" { next := 64 } _ { next := 172 } rfl).1⟩

/-! ## Asset pools -/

/-- Closed form of `reallocate_asset_pool` when its `assert` lets it proceed. -/
theorem reallocate_closed_form (E : PoolEnv) (T Size : Nat) (st : PoolState)
    (hassert : assert_ok E T) :
    reallocate_asset_pool E T Size st = some (E.new_pool T Size,
      { mem := memmove st.mem (E.new_pool T Size) (st.g_assetPool T)
          ((st.g_poolSize T * get_asset_type_size T) % 2 ^ 32),
        g_assetPool := fun t => if t = T then E.new_pool T Size else st.g_assetPool t,
        g_poolSize := fun t => if t = T then Size else st.g_poolSize t,
        log := st.log ++ [PatchEvent.memmove (E.new_pool T Size) (st.g_assetPool T)
          ((st.g_poolSize T * get_asset_type_size T) % 2 ^ 32)] }) := by
  have h : ¬ (E.NDEBUG = false ∧ get_asset_type_size T ≠ E.DB_GetXAssetTypeSize T) := by
    rcases hassert with h | h
    · simp [h]
    · simp [h]
  simp only [reallocate_asset_pool, h, if_false]

theorem memmove_dst (mem : Nat → Nat) (dst src n i : Nat) (h : i < n) :
    memmove mem dst src n (dst + i) = mem (src + i) := by
  simp [memmove, h]

theorem memmove_outside (mem : Nat → Nat) (dst src n a : Nat) (h : a < dst ∨ dst + n ≤ a) :
    memmove mem dst src n a = mem a := by
  have : ¬ (dst ≤ a ∧ a < dst + n) := by omega
  simp [memmove, this]

/-- C11: for a pool whose capacity is at most `Size` (and a new store whose byte
size fits the 32-bit copy length, as every static array does),
`reallocate_asset_pool<Type, Size>` returns, `g_assetPool[Type]` designates the
new store, the first `old_capacity * element_size` bytes of the new store are
the bytes the old store held, and so every old slot is found with the same
contents at the same slot index. -/
theorem reallocate_preserves_contents (E : PoolEnv) (T Size : Nat) (st : PoolState)
    (hassert : assert_ok E T) (hcap : st.g_poolSize T ≤ Size)
    (hfit : get_asset_type_size T * Size < 2 ^ 32) :
    ∃ st', reallocate_asset_pool E T Size st = some (E.new_pool T Size, st') ∧
      st'.g_assetPool T = E.new_pool T Size ∧
      (∀ i, i < st.g_poolSize T * get_asset_type_size T →
        st'.mem (E.new_pool T Size + i) = st.mem (st.g_assetPool T + i)) ∧
      (∀ slot j, slot < st.g_poolSize T → j < get_asset_type_size T →
        st'.mem (st'.g_assetPool T + (slot * get_asset_type_size T + j)) =
          st.mem (st.g_assetPool T + (slot * get_asset_type_size T + j))) := by
  have hle : st.g_poolSize T * get_asset_type_size T ≤ get_asset_type_size T * Size := by
    rw [Nat.mul_comm]
    exact Nat.mul_le_mul_left _ hcap
  have hmod : (st.g_poolSize T * get_asset_type_size T) % 2 ^ 32
      = st.g_poolSize T * get_asset_type_size T :=
    Nat.mod_eq_of_lt (Nat.lt_of_le_of_lt hle hfit)
  have hbytes : ∀ i, i < st.g_poolSize T * get_asset_type_size T →
      memmove st.mem (E.new_pool T Size) (st.g_assetPool T)
        ((st.g_poolSize T * get_asset_type_size T) % 2 ^ 32) (E.new_pool T Size + i)
        = st.mem (st.g_assetPool T + i) := by
    intro i hi
    rw [hmod]
    exact memmove_dst _ _ _ _ _ hi
  refine ⟨_, reallocate_closed_form E T Size st hassert, ?_, ?_, ?_⟩
  · simp
  · exact hbytes
  · intro slot j hslot hj
    simp only [if_true]
    apply hbytes
    calc slot * get_asset_type_size T + j
        < slot * get_asset_type_size T + get_asset_type_size T := by omega
      _ = (slot + 1) * get_asset_type_size T := by rw [Nat.succ_mul]
      _ ≤ st.g_poolSize T * get_asset_type_size T := Nat.mul_le_mul_right _ hslot

/-- Witness of C11: the localize pool of capacity 2 moved to a store of capacity 4. -/
theorem reallocate_preserves_contents_witness :
    assert_ok poolEnvT 37 ∧ poolState0.g_poolSize 37 ≤ 4 ∧ get_asset_type_size 37 * 4 < 2 ^ 32 ∧
    ∃ st', reallocate_asset_pool poolEnvT 37 4 poolState0 = some (poolEnvT.new_pool 37 4, st') ∧
      st'.g_assetPool 37 = poolEnvT.new_pool 37 4 ∧
      (∀ i, i < poolState0.g_poolSize 37 * get_asset_type_size 37 →
        st'.mem (poolEnvT.new_pool 37 4 + i) = poolState0.mem (poolState0.g_assetPool 37 + i)) :=
  ⟨Or.inr rfl, by decide, by decide,
    (reallocate_preserves_contents poolEnvT 37 4 poolState0 (Or.inr rfl) (by decide)
      (by decide)).imp (fun _ h => ⟨h.1, h.2.1, h.2.2.1⟩)⟩

theorem read_u64_congr (m1 m2 : Nat → Nat) (r : Nat) (h : ∀ i, i < 8 → m1 (r + i) = m2 (r + i)) :
    read_u64 m1 r = read_u64 m2 r := by
  unfold read_u64
  congr 1
  apply List.map_congr_left
  intro i hi
  rw [h i (by simpa using hi)]

/-- C12, as the code has it: `reallocate_asset_pool` has no path that rejects the
call because of references into the pool.  Whatever the memory holds, it returns
(only a failed `assert` on the element size aborts it), `g_assetPool[Type]` is
the new store and `g_poolSize[Type]` is `Size`, and every 64-bit cell that lies
outside the copied range of the new store keeps its value: a reference taken
before still holds an address of the old store. -/
theorem reallocate_ignores_references (E : PoolEnv) (T Size : Nat) (st : PoolState)
    (hassert : assert_ok E T) :
    ∃ st', reallocate_asset_pool E T Size st = some (E.new_pool T Size, st') ∧
      st'.g_assetPool T = E.new_pool T Size ∧ st'.g_poolSize T = Size ∧
      ∀ r, (r + 8 ≤ E.new_pool T Size ∨
          E.new_pool T Size + (st.g_poolSize T * get_asset_type_size T) % 2 ^ 32 ≤ r) →
        read_u64 st'.mem r = read_u64 st.mem r := by
  refine ⟨_, reallocate_closed_form E T Size st hassert, ?_, ?_, ?_⟩
  · simp
  · simp
  · intro r hr
    apply read_u64_congr
    intro i hi
    apply memmove_outside
    omega

/-- Witness of the amended C12 on the localize pool. -/
theorem reallocate_ignores_references_witness :
    assert_ok poolEnvT 37 ∧
    ∃ st', reallocate_asset_pool poolEnvT 37 4 poolState0 = some (poolEnvT.new_pool 37 4, st') ∧
      st'.g_assetPool 37 = poolEnvT.new_pool 37 4 ∧ st'.g_poolSize 37 = 4 :=
  ⟨Or.inr rfl, (reallocate_ignores_references poolEnvT 37 4 poolState0 (Or.inr rfl)).imp
    (fun _ h => ⟨h.1, h.2.1, h.2.2.1⟩)⟩

/-- C12 as stated fails: the cell at address 5000 holds the address 1016 of slot
1 of the localize pool (a reference into the pool has been taken), and
`reallocate_asset_pool<37, 4>` still returns, with the backing store moved from
1000 to the new store, the capacity changed from 2 to 4, and the cell still
holding 1016. -/
theorem reallocate_with_reference_not_rejected :
    points_into_pool poolState0 37 5000 ∧
    ∃ p st', reallocate_asset_pool poolEnvT 37 4 poolState0 = some (p, st') ∧
      poolState0.g_assetPool 37 = 1000 ∧ st'.g_assetPool 37 = 38000004 ∧
      poolState0.g_poolSize 37 = 2 ∧ st'.g_poolSize 37 = 4 ∧
      read_u64 st'.mem 5000 = 1016 :=
  ⟨by unfold points_into_pool; decide, _, _, rfl, rfl, rfl, rfl, rfl, by decide⟩

/-- C13, as the code has it: after `reallocate_asset_pool<Type, Size>` the
capacity `g_poolSize[Type]` is exactly `Size`, whatever it was; when the capacity
before is at most `Size` (and the new store fits the 32-bit copy length) the
capacity has not decreased and the number of bytes copied is
`old_capacity * element_size`, which is at most the `Size * element_size` bytes of
the new store. -/
theorem reallocate_capacity (E : PoolEnv) (T Size : Nat) (st : PoolState)
    (hassert : assert_ok E T) :
    ∃ st' n, reallocate_asset_pool E T Size st = some (E.new_pool T Size, st') ∧
      st'.g_poolSize T = Size ∧
      st'.log = st.log ++ [PatchEvent.memmove (E.new_pool T Size) (st.g_assetPool T) n] ∧
      (st.g_poolSize T ≤ Size → get_asset_type_size T * Size < 2 ^ 32 →
        st.g_poolSize T ≤ st'.g_poolSize T ∧
        n = st.g_poolSize T * get_asset_type_size T ∧
        n ≤ Size * get_asset_type_size T) := by
  refine ⟨_, _, reallocate_closed_form E T Size st hassert, ?_, rfl, ?_⟩
  · simp
  · intro hcap hfit
    have hle : st.g_poolSize T * get_asset_type_size T ≤ Size * get_asset_type_size T :=
      Nat.mul_le_mul_right _ hcap
    have hlt : st.g_poolSize T * get_asset_type_size T < 2 ^ 32 := by
      rw [Nat.mul_comm] at hfit
      exact Nat.lt_of_le_of_lt hle hfit
    refine ⟨by simpa using hcap, Nat.mod_eq_of_lt hlt, ?_⟩
    rw [Nat.mod_eq_of_lt hlt]
    exact hle

/-- Witness of the amended C13 on the localize pool. -/
theorem reallocate_capacity_witness :
    assert_ok poolEnvT 37 ∧
    ∃ st' n, reallocate_asset_pool poolEnvT 37 4 poolState0 = some (poolEnvT.new_pool 37 4, st') ∧
      st'.g_poolSize 37 = 4 ∧
      st'.log = poolState0.log ++ [PatchEvent.memmove (poolEnvT.new_pool 37 4) 1000 n] :=
  ⟨Or.inr rfl, (reallocate_capacity poolEnvT 37 4 poolState0 (Or.inr rfl)).imp
    (fun _ h => h.imp (fun _ h => ⟨h.1, h.2.1, h.2.2.1⟩))⟩

/-- C13 as stated fails: a localize pool of capacity 20 reallocated with
`Size = 10` ends with capacity 10, and the copy moves 320 bytes towards a new
store of 160 bytes. -/
theorem reallocate_can_shrink :
    ∃ p st', reallocate_asset_pool poolEnvT 37 10 poolState20 = some (p, st') ∧
      poolState20.g_poolSize 37 = 20 ∧ st'.g_poolSize 37 = 10 ∧
      st'.log = [PatchEvent.memmove p 1000 320] ∧ 10 * get_asset_type_size 37 = 160 :=
  ⟨_, _, rfl, rfl, rfl, rfl, rfl⟩

/-- C14: after `patch_asset_loading` (the three enum values being distinct and
the asserts letting the calls proceed) the capacities are 15000 for
`ASSET_TYPE_LOCALIZE_ENTRY`, 30000 for `ASSET_TYPE_IMAGE` and 18000 for
`ASSET_TYPE_MATERIAL`, their backing stores are the three new static arrays, the
capacity and the backing store of every other type are unchanged, and exactly
three pool copies were made, one per type, each from the store the type had
before and of `old_capacity * get_asset_type_size(Type)` bytes. -/
theorem patch_asset_loading_capacities (E : PoolEnv) (st : PoolState)
    (hLI : E.ASSET_TYPE_LOCALIZE_ENTRY ≠ E.ASSET_TYPE_IMAGE)
    (hLM : E.ASSET_TYPE_LOCALIZE_ENTRY ≠ E.ASSET_TYPE_MATERIAL)
    (hIM : E.ASSET_TYPE_IMAGE ≠ E.ASSET_TYPE_MATERIAL)
    (hL : assert_ok E E.ASSET_TYPE_LOCALIZE_ENTRY) (hI : assert_ok E E.ASSET_TYPE_IMAGE)
    (hM : assert_ok E E.ASSET_TYPE_MATERIAL) :
    ∃ st', patch_asset_loading E st = some st' ∧
      st'.g_poolSize E.ASSET_TYPE_LOCALIZE_ENTRY = 15000 ∧
      st'.g_poolSize E.ASSET_TYPE_IMAGE = 30000 ∧
      st'.g_poolSize E.ASSET_TYPE_MATERIAL = 18000 ∧
      st'.g_assetPool E.ASSET_TYPE_LOCALIZE_ENTRY = E.new_pool E.ASSET_TYPE_LOCALIZE_ENTRY 15000 ∧
      st'.g_assetPool E.ASSET_TYPE_IMAGE = E.new_pool E.ASSET_TYPE_IMAGE 30000 ∧
      st'.g_assetPool E.ASSET_TYPE_MATERIAL = E.new_pool E.ASSET_TYPE_MATERIAL 18000 ∧
      (∀ t, t ≠ E.ASSET_TYPE_LOCALIZE_ENTRY → t ≠ E.ASSET_TYPE_IMAGE →
        t ≠ E.ASSET_TYPE_MATERIAL →
        st'.g_poolSize t = st.g_poolSize t ∧ st'.g_assetPool t = st.g_assetPool t) ∧
      (st'.log.drop st.log.length).filter PatchEvent.isMemmove =
        [ PatchEvent.memmove (E.new_pool E.ASSET_TYPE_LOCALIZE_ENTRY 15000)
            (st.g_assetPool E.ASSET_TYPE_LOCALIZE_ENTRY)
            ((st.g_poolSize E.ASSET_TYPE_LOCALIZE_ENTRY *
              get_asset_type_size E.ASSET_TYPE_LOCALIZE_ENTRY) % 2 ^ 32),
          PatchEvent.memmove (E.new_pool E.ASSET_TYPE_IMAGE 30000)
            (st.g_assetPool E.ASSET_TYPE_IMAGE)
            ((st.g_poolSize E.ASSET_TYPE_IMAGE *
              get_asset_type_size E.ASSET_TYPE_IMAGE) % 2 ^ 32),
          PatchEvent.memmove (E.new_pool E.ASSET_TYPE_MATERIAL 18000)
            (st.g_assetPool E.ASSET_TYPE_MATERIAL)
            ((st.g_poolSize E.ASSET_TYPE_MATERIAL *
              get_asset_type_size E.ASSET_TYPE_MATERIAL) % 2 ^ 32) ] := by
  simp only [patch_asset_loading, PoolState.patch, reallocate_closed_form E _ _ _ hL,
    reallocate_closed_form E _ _ _ hI, reallocate_closed_form E _ _ _ hM]
  refine ⟨_, rfl, ?_, ?_, ?_, ?_, ?_, ?_, ?_, ?_⟩
  · simp [hLI, hLM]
  · simp [hIM]
  · simp
  · simp [hLI, hLM]
  · simp [hIM]
  · simp
  · intro t h1 h2 h3
    simp [h1, h2, h3]
  · simp [PatchEvent.isMemmove, List.filter_cons, hLI.symm, hLM.symm, hIM.symm]

/-- Witness of C14: the enum values of the table, whose strides are 16, 104 and 592. -/
theorem patch_asset_loading_capacities_witness :
    poolEnvT.ASSET_TYPE_LOCALIZE_ENTRY ≠ poolEnvT.ASSET_TYPE_IMAGE ∧
    poolEnvT.ASSET_TYPE_LOCALIZE_ENTRY ≠ poolEnvT.ASSET_TYPE_MATERIAL ∧
    poolEnvT.ASSET_TYPE_IMAGE ≠ poolEnvT.ASSET_TYPE_MATERIAL ∧
    assert_ok poolEnvT poolEnvT.ASSET_TYPE_LOCALIZE_ENTRY ∧
    assert_ok poolEnvT poolEnvT.ASSET_TYPE_IMAGE ∧
    assert_ok poolEnvT poolEnvT.ASSET_TYPE_MATERIAL ∧
    get_asset_type_size poolEnvT.ASSET_TYPE_LOCALIZE_ENTRY = 16 ∧
    get_asset_type_size poolEnvT.ASSET_TYPE_IMAGE = 104 ∧
    get_asset_type_size poolEnvT.ASSET_TYPE_MATERIAL = 592 ∧
    ∃ st', patch_asset_loading poolEnvT poolState0 = some st' ∧
      st'.g_poolSize poolEnvT.ASSET_TYPE_LOCALIZE_ENTRY = 15000 ∧
      st'.g_poolSize poolEnvT.ASSET_TYPE_IMAGE = 30000 ∧
      st'.g_poolSize poolEnvT.ASSET_TYPE_MATERIAL = 18000 :=
  ⟨by decide, by decide, by decide, Or.inr rfl, Or.inr rfl, Or.inr rfl, rfl, rfl, rfl,
    (patch_asset_loading_capacities poolEnvT poolState0 (by decide) (by decide) (by decide)
      (Or.inr rfl) (Or.inr rfl) (Or.inr rfl)).imp (fun _ h => ⟨h.1, h.2.1, h.2.2.1, h.2.2.2.1⟩)⟩

/-! ## Export of streamed images -/

/-- C15 evaluated on the code.  In every world, an iteration of
`dump_streamed_image` that opens its pack file and gets its buffer writes the
`.pixels` file from the codec's output on the whole buffer, however few bytes the
read delivered.  In particular, when sub-index 1 is the range [16, 32) of a pack
file of 20 bytes, so that the read delivers 4 bytes instead of 16, the 16-byte
buffer (4 bytes read, 12 zeros) goes to the codec and both the `.pixels` file and
the `.dds` file of sub-index 1 are written. -/
theorem dump_short_read_still_written :
    (∀ (D : DumpEnv) (image : Image) (isSelf dumpDDS : Bool) (i : Nat) (content : List Nat),
      (D.stream_files (D.stream_file_index + i)).fileIndex ≠ 0 →
      (D.stream_files (D.stream_file_index + i)).offset ≠ 0 →
      (D.stream_files (D.stream_file_index + i)).offsetEnd ≠ 0 →
      D.ifstream_open (pak_path D isSelf (D.stream_files (D.stream_file_index + i)))
        = some content →
      size_sub (D.stream_files (D.stream_file_index + i)).offsetEnd
        (D.stream_files (D.stream_file_index + i)).offset ≤ vector_max_size →
      DumpEvent.write_file (D.get_dump_path ++ stream_pixels_name image.nameStr i)
          (D.decompress_lz4_block (read_buffer content
            (D.stream_files (D.stream_file_index + i)).offset
            (size_sub (D.stream_files (D.stream_file_index + i)).offsetEnd
              (D.stream_files (D.stream_file_index + i)).offset)))
        ∈ dump_stream_block D image isSelf dumpDDS i) ∧
    (ifstream_read (List.range 20) 16 (size_sub 32 16)).length = 4 ∧ size_sub 32 16 = 16 ∧
    dump_streamed_image dumpEnvShort imgPix false true =
      [ DumpEvent.read "zone\\imagefile1.pak" 16 16,
        DumpEvent.create_directories "dump\\streamed_images\\",
        DumpEvent.write_file "dump\\streamed_images\\sky_stream1.pixels"
          [16, 17, 18, 19, 0, 0, 0, 0, 0, 0, 0, 0, 0, 0, 0, 0],
        DumpEvent.SaveToDDSFile "dump\\streamed_images\\sky_stream1.dds"
          { format := 61, width := 0, height := 0, rowPitch := 0, slicePitch := 0,
            pixels := [16, 17, 18, 19, 0, 0, 0, 0, 0, 0, 0, 0, 0, 0, 0, 0] } ] := by
  refine ⟨?_, by decide, by decide, by decide⟩
  intro D image isSelf dumpDDS i content h1 h2 h3 hopen hsz
  have hmax : ¬ vector_max_size < size_sub (D.stream_files (D.stream_file_index + i)).offsetEnd
      (D.stream_files (D.stream_file_index + i)).offset := Nat.not_lt.mpr hsz
  simp [dump_stream_block, h1, h2, h3, hopen, hmax, stream_pixels_name, String.append_assoc]

/-- A reversed range: for sub-index 0 with `offset = 32` and `offsetEnd = 16` the
unsigned difference is `2^64 - 16`, the constructor of the buffer throws, nothing
is read or written, and sub-index 1, a valid range of the same file, is not
reached. -/
theorem dump_reversed_range_throws :
    size_sub 16 32 = 2 ^ 64 - 16 ∧
    dump_stream_block dumpEnvReversed imgPix false true 1 ≠ [] ∧
    dump_streamed_image dumpEnvReversed imgPix false true = [DumpEvent.length_error] := by
  refine ⟨by decide, by decide, by decide⟩

/-- C17: for every image name and sub-index, the file that `dump_streamed_image`
writes the decompressed block to is the dump directory followed by
`streamed_images\<clean_name(name)>_stream<i>.pixels`, and `get_streamed_image_pixels`
and `get_streamed_image_pixels_path` probe, by existence check, the search
directory of that same relative name followed by that same relative name. -/
theorem stream_file_names_agree (E : Env) (D : DumpEnv) (read_file : String → List Nat)
    (image : Image) (isSelf dumpDDS : Bool) (i : Nat) :
    (∀ path data, DumpEvent.write_file path data ∈ dump_stream_block D image isSelf dumpDDS i →
      path = D.get_dump_path ++ stream_pixels_name image.nameStr i) ∧
    get_streamed_image_pixels_path E image.nameStr i =
      (if E.io_file_exists (E.get_file_path (stream_pixels_name image.nameStr i) ++
          stream_pixels_name image.nameStr i)
       then some (E.get_file_path (stream_pixels_name image.nameStr i) ++
          stream_pixels_name image.nameStr i)
       else none) ∧
    get_streamed_image_pixels E read_file image.nameStr i =
      (if E.io_file_exists (E.get_file_path (stream_pixels_name image.nameStr i) ++
          stream_pixels_name image.nameStr i)
       then some (read_file (E.get_file_path (stream_pixels_name image.nameStr i) ++
          stream_pixels_name image.nameStr i))
       else none) ∧
    stream_pixels_name image.nameStr i =
      "streamed_images\\" ++ clean_name image.nameStr ++ "_stream" ++ toString i ++ ".pixels" := by
  refine ⟨?_, rfl, rfl, rfl⟩
  intro path data hmem
  unfold dump_stream_block at hmem
  by_cases hskip : (D.stream_files (D.stream_file_index + i)).fileIndex = 0 ∨
      (D.stream_files (D.stream_file_index + i)).offset = 0 ∨
      (D.stream_files (D.stream_file_index + i)).offsetEnd = 0
  · simp [hskip] at hmem
  · simp only [hskip, if_false] at hmem
    cases hopen : D.ifstream_open
        (pak_path D isSelf (D.stream_files (D.stream_file_index + i))) with
    | none => simp [hopen] at hmem
    | some content =>
      simp only [hopen] at hmem
      by_cases hmax : vector_max_size < size_sub
          (D.stream_files (D.stream_file_index + i)).offsetEnd
          (D.stream_files (D.stream_file_index + i)).offset
      · simp [hmax] at hmem
      · simp only [hmax, if_false] at hmem
        by_cases hd : dumpDDS = true
        · simp [hd] at hmem
          rw [hmem.1]
          simp [stream_pixels_name, String.append_assoc]
        · simp [hd] at hmem
          rw [hmem.1]
          simp [stream_pixels_name, String.append_assoc]

/-- An instance of C17: the block written in `dumpEnvShort` for sub-index 1 of
`sky` goes to the dump directory followed by the probed relative name. -/
theorem stream_file_names_agree_witness :
    DumpEvent.write_file "dump\\streamed_images\\sky_stream1.pixels"
        [16, 17, 18, 19, 0, 0, 0, 0, 0, 0, 0, 0, 0, 0, 0, 0]
      ∈ dump_stream_block dumpEnvShort imgPix false true 1 ∧
    "dump\\streamed_images\\sky_stream1.pixels"
      = dumpEnvShort.get_dump_path ++ stream_pixels_name imgPix.nameStr 1 :=
  ⟨by decide,
    (stream_file_names_agree envT dumpEnvShort (fun _ => []) imgPix false true 1).1
      "dump\\streamed_images\\sky_stream1.pixels"
      [16, 17, 18, 19, 0, 0, 0, 0, 0, 0, 0, 0, 0, 0, 0, 0] (by decide)⟩

/-! ## The default image and the external sources -/

/-- C18: when the chain of `gfx_image::init` is exhausted (the name is not
referenced, and `parse`, `parse_streamed_image` and `parse_custom` return null
one after the other), `init` returns and the asset is the default: width, height
and depth 1, format `DXGI_FORMAT_R8G8B8A8_UNORM`, map type `MAPTYPE_2D`, flags 0,
`levelCount` 1, `numElements` 1, not streamed, pixel bytes 255, 0, 0, 255, name
string equal to the requested name, and `dataLen1 = dataLen2 = 4`, which is
`width * height * depth * 4`. -/
theorem init_default_image (E : Env) (self : gfx_image) (name : String)
    (mem m1 m2 m3 : zone_memory) (g2 g3 : gfx_image)
    (href : E.referenced name = false)
    (h1 : gfx_image.parse E name mem = Except.ok (none, m1))
    (h2 : gfx_image.parse_streamed_image E { self with name_ := name } name m1
      = Except.ok (none, g2, m2))
    (h3 : g2.parse_custom E name m2 = (none, g3, m3)) :
    ∃ g m a, self.init E name mem = Except.ok (g, m) ∧ g.asset_ = some a ∧
      a.hdr.width = 1 ∧ a.hdr.height = 1 ∧ a.hdr.depth = 1 ∧
      a.hdr.imageFormat = E.DXGI_FORMAT_R8G8B8A8_UNORM ∧ a.hdr.mapType = E.MAPTYPE_2D ∧
      a.hdr.flags = 0 ∧ a.hdr.levelCount = 1 ∧ a.hdr.numElements = 1 ∧
      a.hdr.streamed = false ∧ a.hdr.pixelData = E.def_addr ∧
      a.pixels = [255, 0, 0, 255] ∧ payload a = [255, 0, 0, 255] ∧
      a.nameStr = name ∧ g.name_ = name ∧
      a.hdr.dataLen1 = 4 ∧ a.hdr.dataLen2 = 4 ∧
      a.hdr.dataLen1 = ((a.hdr.width * a.hdr.height * a.hdr.depth * 4 : Nat) : Int) := by
  have hinit : self.init E name mem =
      Except.ok ({ g3 with asset_ := some (default_image E name m3).1 },
        (default_image E name m3).2) := by
    simp [gfx_image.init, href, h1, h2, h3]
  have hn2 : g2.name_ = name := parse_streamed_image_name E _ name m1 none g2 m2 h2
  have hn3 : g3.name_ = g2.name_ := by
    have := parse_custom_name E g2 name m2
    rw [h3] at this
    exact this
  refine ⟨_, _, _, hinit, rfl, rfl, rfl, rfl, rfl, rfl, rfl, rfl, rfl, rfl, rfl, rfl, ?_, rfl,
    hn3.trans hn2, rfl, rfl, ?_⟩
  · simp [payload, default_image, readBytes, toSizeT]
    decide
  · simp [default_image]

/-- Witness of C18: a name without any source. -/
theorem init_default_image_witness :
    envT.referenced "sky" = false ∧
    gfx_image.parse envT "sky" { next := 64 } = Except.ok (none, { next := 64 }) ∧
    gfx_image.parse_streamed_image envT { self0 with name_ := "sky" } "sky" { next := 64 }
      = Except.ok (none, { self0 with name_ := "sky" }, { next := 64 }) ∧
    gfx_image.parse_custom envT { self0 with name_ := "sky" } "sky" { next := 64 }
      = (none, { self0 with name_ := "sky" }, { next := 64 }) ∧
    ∃ g m a, self0.init envT "sky" { next := 64 } = Except.ok (g, m) ∧ g.asset_ = some a ∧
      a.hdr.width = 1 ∧ a.hdr.height = 1 ∧ a.hdr.depth = 1 :=
  ⟨rfl, rfl, rfl, rfl,
    (init_default_image envT self0 "sky" { next := 64 } { next := 64 } { next := 64 }
      { next := 64 } { self0 with name_ := "sky" } { self0 with name_ := "sky" }
      rfl rfl rfl rfl).imp
      (fun _ h => h.imp (fun _ h => h.imp (fun _ h => ⟨h.1, h.2.1, h.2.2.1, h.2.2.2.1,
        h.2.2.2.2.1⟩)))⟩

/-- C19: `gfx_image::parse_custom` tries DirectXTex first and IWI second.  When
DirectXTex parsing succeeds it returns that image with `is_iwi` false, and the
result does not depend on the IWI decoder at all; when DirectXTex fails and IWI
parsing succeeds it returns the IWI image with `is_iwi` true; when both fail it
returns null and the object, `is_iwi` included, is unchanged.  So after a
non-null result `is_iwi` is true exactly when DirectXTex had failed. -/
theorem parse_custom_order (E : Env) (self : gfx_image) (name : String) (mem : zone_memory) :
    (∀ i m, directxtex.parse E name mem = (some i, m) →
      self.parse_custom E name mem = (some i, { self with is_iwi := false }, m) ∧
      ∀ f, gfx_image.parse_custom { E with parse_iwi := f } self name mem
        = self.parse_custom E name mem) ∧
    (∀ m1 i m2, directxtex.parse E name mem = (none, m1) →
      iwi.parse E name m1 = (some i, m2) →
      self.parse_custom E name mem = (some i, { self with is_iwi := true }, m2)) ∧
    (∀ m1 m2, directxtex.parse E name mem = (none, m1) → iwi.parse E name m1 = (none, m2) →
      self.parse_custom E name mem = (none, self, m2)) ∧
    (∀ i g m, self.parse_custom E name mem = (some i, g, m) →
      (g.is_iwi = true ↔ (directxtex.parse E name mem).1 = none) ∧
      g = { self with is_iwi := g.is_iwi }) := by
  refine ⟨?_, ?_, ?_, ?_⟩
  · intro i m h
    have hf : ∀ f, directxtex.parse { E with parse_iwi := f } name mem
        = directxtex.parse E name mem := by
      intro f
      rfl
    refine ⟨by simp [gfx_image.parse_custom, h], ?_⟩
    intro f
    simp [gfx_image.parse_custom, hf, h]
  · intro m1 i m2 h1 h2
    simp [gfx_image.parse_custom, h1, h2]
  · intro m1 m2 h1 h2
    simp [gfx_image.parse_custom, h1, h2]
  · intro i g m h
    unfold gfx_image.parse_custom at h
    cases hd : directxtex.parse E name mem with
    | mk od md =>
      cases od with
      | some d =>
        simp [hd] at h
        obtain ⟨_, hg, _⟩ := h
        subst hg
        simp
      | none =>
        simp only [hd] at h
        cases hi : iwi.parse E name md with
        | mk oi mi =>
          cases oi with
          | some w =>
            simp [hi] at h
            obtain ⟨_, hg, _⟩ := h
            subst hg
            simp
          | none => simp [hi] at h

/-- An instance of C19: with the external source `images\sky.tga` present,
`parse_custom` returns the converted texture with `is_iwi` false, also when the
object had `is_iwi` set and whatever the IWI decoder would do. -/
theorem parse_custom_order_witness :
    ∃ i m, directxtex.parse envTga "sky" { next := 64 } = (some i, m) ∧
      gfx_image.parse_custom envTga { self0 with is_iwi := true } "sky" { next := 64 }
        = (some i, { self0 with is_iwi := false }, m) :=
  ⟨_, _, rfl,
    ((parse_custom_order envTga { self0 with is_iwi := true } "sky" { next := 64 }).1 _ _ rfl).1⟩

/-! ## Archive listing -/

theorem escape_name_sky : escape_name "sky" = "sky" := by
  simp [escape_name, escape_loop, str_find]

theorem collect_assets_a : collect_assets archiveEnvT "a" = [("image", "sky")] := by
  decide

/-- C20 evaluated on the code: for the chunk made of the zone `a` (one listed
asset) followed by the launcher zone `hmw_launcher`, the text built by
`batchdumpzonewalkarchive` carries a comma after the object of `a`, which is the
last object emitted: the comma is decided by the index of the zone in the chunk,
not by whether another object follows.  The single child entry has no comma. -/
theorem chunk_json_trailing_comma :
    chunk_json archiveEnvT ["a", "hmw_launcher"] 0 2 =
      "\x7b\n  \"zones\": [\n    \x7b\n      \"name\": \"a\",\n      \"children\": [\n        \x7b\"name\": \"sky\", \"path\": \"a/image/sky\"\x7d\n      ]\n    \x7d,\n  ]\n\x7d\n" := by
  have h1 : archiveEnvT.stem (["a", "hmw_launcher"].getD 0 "") = "a" := rfl
  have h2 : archiveEnvT.stem (["a", "hmw_launcher"].getD 1 "") = "hmw_launcher" := rfl
  simp only [chunk_json, List.range', List.foldl, archive_zone_step, h1, h2, collect_assets_a]
  simp only [List.length_singleton, (by decide : List.range 1 = [0]), List.foldl,
    archive_child_step, List.getD_cons_zero, escape_name_sky]
  decide

/-! ## Archive chunks -/

theorem total_chunks_eq (n : Nat) (hn : n + 10 ≤ 2 ^ 64) : total_chunks n = (n + 9) / 10 := by
  unfold total_chunks CHUNK_SIZE
  rw [Nat.mod_eq_of_lt (by omega)]
  have h : n + 10 - 1 = n + 9 := by omega
  rw [h]

theorem chunk_start_idx_eq (n k : Nat) (hn : n + 10 ≤ 2 ^ 64) (hk : k < total_chunks n) :
    chunk_start_idx k = 10 * k := by
  rw [total_chunks_eq n hn] at hk
  unfold chunk_start_idx CHUNK_SIZE
  rw [Nat.mod_eq_of_lt (by omega)]
  omega

theorem chunk_end_idx_eq (n k : Nat) (hn : n + 10 ≤ 2 ^ 64) (hk : k < total_chunks n) :
    chunk_end_idx n k = min (10 * k + 10) n := by
  unfold chunk_end_idx
  rw [chunk_start_idx_eq n k hn hk]
  rw [total_chunks_eq n hn] at hk
  unfold CHUNK_SIZE
  rw [Nat.mod_eq_of_lt (by omega)]

theorem zero_pad3_length (m e : Nat) (he : 3 ≤ e) (hm : m < 10 ^ e) :
    (zero_pad3 m).length ≤ e := by
  have h : (toString m).length ≤ e := Nat.repr_length m e (by omega) hm
  have hl : (zero_pad3 m).length = (3 - (toString m).length) + (toString m).length := by
    unfold zero_pad3
    rw [String.length_append]
    show (List.replicate (3 - (toString m).length) '0').length + (toString m).length = _
    rw [List.length_replicate]
  rw [hl]
  omega

theorem snprintf_fits (size : Nat) (s : String) (h : s.length ≤ size - 1) : snprintf size s = s := by
  unfold snprintf
  rw [List.take_of_length_le h]

theorem chunk_filename_eq (k : Nat) (hk : k + 1 < 10 ^ 11) :
    chunk_filename k = "file_structure_" ++ zero_pad3 (k + 1) ++ ".json" := by
  unfold chunk_filename
  have hmod : (k + 1) % 2 ^ 64 = k + 1 := Nat.mod_eq_of_lt (by omega)
  rw [hmod]
  apply snprintf_fits
  have hz := zero_pad3_length (k + 1) 11 (by omega) hk
  rw [String.length_append, String.length_append]
  have h1 : "file_structure_".length = 15 := by decide
  have h2 : ".json".length = 5 := by decide
  omega

/-- C21: for a sorted zone list of `n` zones, `n` being a number of files a folder
listing held in memory can reach (`n + 10 ≤ 10 ^ 12`),
`batchdumpzonewalkarchive` produces `(n + 9) / 10` chunks, the
least number `c` with `n ≤ 10 * c`; chunk `k` is the text for the indices from
`10 * k` up to `min (10 * k + 10) n`, a non-empty range of at most 10 indices, and
goes to the file `file_structure_` followed by `k + 1` in decimal with zeros in
front up to three digits and `.json`; no zone gives no chunk; and every zone index
lies in the range of exactly one chunk. -/
theorem archive_chunking (W : ArchiveEnv) (zones : List String)
    (hn : zones.length + 10 ≤ 10 ^ 12) :
    (archive_chunks W zones).length = (zones.length + 9) / 10 ∧
    (zones.length ≤ 10 * ((zones.length + 9) / 10) ∧
      10 * ((zones.length + 9) / 10) < zones.length + 10) ∧
    (zones.length = 0 → archive_chunks W zones = []) ∧
    (∀ k, k < (zones.length + 9) / 10 →
      (archive_chunks W zones)[k]? =
        some ("file_structure_" ++ zero_pad3 (k + 1) ++ ".json",
          chunk_json W zones (10 * k) (min (10 * k + 10) zones.length)) ∧
      10 * k < min (10 * k + 10) zones.length ∧
      min (10 * k + 10) zones.length - 10 * k ≤ 10 ∧
      3 ≤ (zero_pad3 (k + 1)).length ∧
      zero_pad3 (k + 1) =
        String.mk (List.replicate (3 - (toString (k + 1)).length) '0') ++ toString (k + 1)) ∧
    (∀ i, i < zones.length →
      i / 10 < (zones.length + 9) / 10 ∧
      10 * (i / 10) ≤ i ∧ i < min (10 * (i / 10) + 10) zones.length ∧
      ∀ k, k < (zones.length + 9) / 10 → 10 * k ≤ i →
        i < min (10 * k + 10) zones.length → k = i / 10) := by
  have hn64 : zones.length + 10 ≤ 2 ^ 64 := by
    have : (10 : Nat) ^ 12 ≤ 2 ^ 64 := by decide
    omega
  have htot := total_chunks_eq zones.length hn64
  refine ⟨?_, ?_, ?_, ?_, ?_⟩
  · simp [archive_chunks, htot]
  · omega
  · intro h0
    simp [archive_chunks, h0, total_chunks, CHUNK_SIZE]
  · intro k hk
    have hk' : k < total_chunks zones.length := by rw [htot]; exact hk
    have hk11 : k + 1 < 10 ^ 11 := by
      have : (10 : Nat) ^ 12 = 10 * 10 ^ 11 := by decide
      omega
    refine ⟨?_, ?_, ?_, ?_, rfl⟩
    · simp only [archive_chunks, List.getElem?_map, List.getElem?_range hk', Option.map_some',
        chunk_filename_eq k hk11, chunk_start_idx_eq _ k hn64 hk', chunk_end_idx_eq _ k hn64 hk']
    · omega
    · omega
    · have hl : (zero_pad3 (k + 1)).length
          = (3 - (toString (k + 1)).length) + (toString (k + 1)).length := by
        unfold zero_pad3
        rw [String.length_append]
        show (List.replicate (3 - (toString (k + 1)).length) '0').length
          + (toString (k + 1)).length = _
        rw [List.length_replicate]
      omega
  · intro i hi
    refine ⟨by omega, by omega, by omega, ?_⟩
    intro k _ h1 h2
    omega

/-- Witness of C21: two zones make one chunk, written to
`file_structure_001.json`. -/
theorem archive_chunking_witness :
    ["a", "hmw_launcher"].length + 10 ≤ 10 ^ 12 ∧
    (archive_chunks archiveEnvT ["a", "hmw_launcher"]).length = 1 ∧
    (archive_chunks archiveEnvT ["a", "hmw_launcher"])[0]? =
      some ("file_structure_" ++ zero_pad3 (0 + 1) ++ ".json",
        chunk_json archiveEnvT ["a", "hmw_launcher"] (10 * 0)
          (min (10 * 0 + 10) ["a", "hmw_launcher"].length)) ∧
    "file_structure_" ++ zero_pad3 (0 + 1) ++ ".json" = "file_structure_001.json" :=
  ⟨by decide, (archive_chunking archiveEnvT ["a", "hmw_launcher"] (by decide)).1,
    ((archive_chunking archiveEnvT ["a", "hmw_launcher"] (by decide)).2.2.2.1 0
      (by decide)).1, by decide⟩

/-- Where the bound of `archive_chunking` comes from: chunk numbers of up to eleven
digits fit the 32-byte buffer of `snprintf`; with `10 ^ 12 - 9` zones, a list no
run of the command can hold, there would be `10 ^ 11` chunks and the name of the
last one, whose number has twelve digits, would lose its final `n`. -/
theorem archive_chunk_name_truncated :
    (List.replicate (10 ^ 12 - 9) "z").length = 10 ^ 12 - 9 ∧
    (archive_chunks archiveEnvT (List.replicate (10 ^ 12 - 9) "z")).length = 10 ^ 11 ∧
    ((archive_chunks archiveEnvT (List.replicate (10 ^ 12 - 9) "z"))[10 ^ 11 - 1]?).map Prod.fst
      = some "file_structure_100000000000.jso" ∧
    "file_structure_" ++ zero_pad3 (10 ^ 11 - 1 + 1) ++ ".json"
      = "file_structure_100000000000.json" := by
  have ht : total_chunks (10 ^ 12 - 9) = 10 ^ 11 := by decide
  refine ⟨List.length_replicate _ _, ?_, ?_, by decide⟩
  · simp only [archive_chunks, List.length_map, List.length_range, List.length_replicate, ht]
  · have hlt : 10 ^ 11 - 1 < total_chunks (List.replicate (10 ^ 12 - 9) "z").length := by
      rw [List.length_replicate, ht]
      decide
    simp only [archive_chunks, List.getElem?_map, List.getElem?_range hlt, Option.map_some']
    decide

/-! ## Escaping of asset names -/

theorem replace_each_indexOf (c a b : Char) (l : List Char) :
    (l.indexOf c < l.length →
      replace_each c a b l =
        l.take (l.indexOf c) ++ a :: b :: replace_each c a b (l.drop (l.indexOf c + 1))) ∧
    (¬ l.indexOf c < l.length → replace_each c a b l = l) := by
  induction l with
  | nil => simp [replace_each]
  | cons x tl ih =>
    by_cases hx : x = c
    · subst hx
      simp [replace_each, List.indexOf_cons]
    · have hx' : (x == c) = false := by simpa using hx
      simp only [replace_each, hx, if_false, List.indexOf_cons, hx', cond_false,
        List.length_cons, Nat.succ_lt_succ_iff, List.take_succ_cons, List.drop_succ_cons,
        List.cons_append, List.cons.injEq, true_and]
      exact ih

theorem str_replace1_split (s : List Char) (pos k : Nat) (a b : Char)
    (hk : k < (s.drop pos).length) :
    str_replace1 s (pos + k) a b =
      (s.take pos ++ (s.drop pos).take k ++ [a, b]) ++ (s.drop pos).drop (k + 1) ∧
    (s.take pos ++ (s.drop pos).take k ++ [a, b]).length = pos + k + 2 := by
  have hlen : pos + k < s.length := by
    simp only [List.length_drop] at hk
    omega
  refine ⟨?_, ?_⟩
  · simp only [str_replace1, List.take_add, List.drop_drop, List.append_assoc,
      List.cons_append, List.nil_append, Nat.add_assoc]
  · simp only [List.length_append, List.length_take, List.length_drop, List.length_cons,
      List.length_nil]
    omega

theorem escape_loop_eq (c a b : Char) (n : Nat) :
    ∀ (s : List Char) (pos : Nat), s.length + 1 - pos ≤ n →
      escape_loop c a b s pos = s.take pos ++ replace_each c a b (s.drop pos) := by
  induction n with
  | zero =>
    intro s pos hn
    rw [escape_loop]
    split
    · rename_i h
      unfold str_find at h
      split at h
      · cases h
      · rename_i hlt
        rw [(replace_each_indexOf c a b (s.drop pos)).2 hlt, List.take_append_drop]
    · rename_i p h
      unfold str_find at h
      split at h
      · rename_i hlt
        simp only [List.length_drop] at hlt
        omega
      · cases h
  | succ n ih =>
    intro s pos hn
    rw [escape_loop]
    split
    · rename_i h
      unfold str_find at h
      split at h
      · cases h
      · rename_i hlt
        rw [(replace_each_indexOf c a b (s.drop pos)).2 hlt, List.take_append_drop]
    · rename_i p h
      unfold str_find at h
      split at h
      · rename_i hlt
        cases h
        obtain ⟨hsplit, hlen⟩ := str_replace1_split s pos ((s.drop pos).indexOf c) a b hlt
        have hlt' := hlt
        simp only [List.length_drop] at hlt'
        have hmeasure : (str_replace1 s (pos + (s.drop pos).indexOf c) a b).length + 1
            - (pos + (s.drop pos).indexOf c + 2) ≤ n := by
          rw [hsplit, List.length_append, hlen, List.length_drop, List.length_drop]
          omega
        rw [ih _ _ hmeasure, hsplit, List.take_left' hlen, List.drop_left' hlen,
          (replace_each_indexOf c a b (s.drop pos)).1 hlt]
        simp [List.append_assoc]
      · cases h

theorem escape_loop_zero (c a b : Char) (s : List Char) :
    escape_loop c a b s 0 = replace_each c a b s := by
  rw [escape_loop_eq c a b (s.length + 1) s 0 (by omega)]
  simp

theorem escape_name_data (name : String) : (escape_name name).data = escape_chars name.data := by
  unfold escape_name
  simp only [escape_loop_zero]
  induction name.data with
  | nil => rfl
  | cons x tl ih =>
    by_cases h1 : x = Char.ofNat 92
    · subst h1
      have hne : Char.ofNat 92 ≠ Char.ofNat 34 := by decide
      simp only [replace_each, if_true, hne, if_false, escape_chars, escape_char, ih,
        List.cons_append, List.nil_append]
    · by_cases h2 : x = Char.ofNat 34
      · subst h2
        have hne : Char.ofNat 92 ≠ Char.ofNat 34 := by decide
        simp only [replace_each, h1, if_true, hne, if_false, escape_chars, escape_char, ih,
          List.cons_append, List.nil_append]
      · simp only [replace_each, h1, h2, if_false, escape_chars, escape_char, ih,
          List.cons_append, List.nil_append]

theorem json_unescape_escape_chars (l : List Char) : json_unescape (escape_chars l) = l := by
  induction l with
  | nil => rfl
  | cons x tl ih =>
    by_cases h1 : x = Char.ofNat 92
    · subst h1
      simp [escape_chars, escape_char, json_unescape, ih]
    · by_cases h2 : x = Char.ofNat 34
      · subst h2
        simp [escape_chars, escape_char, json_unescape, ih]
      · simp only [escape_chars, escape_char, h1, h2, if_false, List.cons_append,
          List.nil_append]
        rw [json_unescape.eq_def]
        simp [h1, ih]

theorem has_bare_quote_escape_chars (l : List Char) : has_bare_quote (escape_chars l) = false := by
  induction l with
  | nil => rfl
  | cons x tl ih =>
    by_cases h1 : x = Char.ofNat 92
    · subst h1
      simp [escape_chars, escape_char, has_bare_quote, ih]
    · by_cases h2 : x = Char.ofNat 34
      · subst h2
        simp [escape_chars, escape_char, has_bare_quote, ih]
      · simp only [escape_chars, escape_char, h1, h2, if_false, List.cons_append,
          List.nil_append]
        rw [has_bare_quote.eq_def]
        simp [h1, h2, ih]

/-- C22: the escaping of an asset name in the archive listing (the backslash loop
followed by the double-quote loop, a total function: both loops terminate on
every string) turns each backslash into two backslashes and each double quote
into backslash and double quote and keeps every other character, in order;
decoding the result with the JSON rules for `\\` and `\"` gives back the name, so
names with equal escapes are equal; and no double quote of the result is left
without a backslash escaping it. -/
theorem escape_name_invertible (name : String) :
    (escape_name name).data = escape_chars name.data ∧
    (∀ x, x ≠ Char.ofNat 92 → x ≠ Char.ofNat 34 → escape_char x = [x]) ∧
    escape_char (Char.ofNat 92) = [Char.ofNat 92, Char.ofNat 92] ∧
    escape_char (Char.ofNat 34) = [Char.ofNat 92, Char.ofNat 34] ∧
    json_unescape (escape_name name).data = name.data ∧
    (∀ other : String, escape_name other = escape_name name → other = name) ∧
    has_bare_quote (escape_name name).data = false := by
  refine ⟨escape_name_data name, ?_, by decide, by decide, ?_, ?_, ?_⟩
  · intro x h1 h2
    simp [escape_char, h1, h2]
  · rw [escape_name_data, json_unescape_escape_chars]
  · intro other h
    have h1 : json_unescape (escape_name other).data = json_unescape (escape_name name).data := by
      rw [h]
    rw [escape_name_data, escape_name_data, json_unescape_escape_chars,
      json_unescape_escape_chars] at h1
    exact String.ext h1
  · rw [escape_name_data, has_bare_quote_escape_chars]

/-- An instance of C22: a name holding a double quote and a backslash. -/
theorem escape_name_invertible_witness :
    (escape_name (String.mk ['s', Char.ofNat 34, 'k', Char.ofNat 92, 'y'])).data
      = ['s', Char.ofNat 92, Char.ofNat 34, 'k', Char.ofNat 92, Char.ofNat 92, 'y'] ∧
    json_unescape (escape_name (String.mk ['s', Char.ofNat 34, 'k', Char.ofNat 92, 'y'])).data
      = ['s', Char.ofNat 34, 'k', Char.ofNat 92, 'y'] :=
  ⟨(escape_name_invertible (String.mk ['s', Char.ofNat 34, 'k', Char.ofNat 92, 'y'])).1.trans
      (by decide),
    (escape_name_invertible (String.mk ['s', Char.ofNat 34, 'k', Char.ofNat 92, 'y'])).2.2.2.2.1⟩

/-! ## Export of an image as DDS -/

theorem foldl_range_out {σ β : Type} (step : σ → Nat → σ) (out : σ → List β)
    (blk : Nat → List β) (h : ∀ st i, out (step st i) = out st ++ blk i) :
    ∀ n st, out ((List.range n).foldl step st) = out st ++ (List.range n).flatMap blk := by
  intro n
  induction n with
  | zero => intro st; simp
  | succ n ih =>
    intro st
    rw [List.range_succ, List.foldl_append, List.flatMap_append]
    simp [h, ih, List.append_assoc]

theorem flatMap_const_length {β : Type} (l : List β) (n : Nat) :
    ((List.range n).flatMap (fun _ => l)).length = n * l.length := by
  induction n with
  | zero => simp
  | succ n ih =>
    rw [List.range_succ, List.flatMap_append, List.length_append, ih]
    simp [Nat.succ_mul]

theorem flatMap_const_getElem? {β : Type} (l : List β) (n i m : Nat) (hi : i < n)
    (hm : m < l.length) :
    ((List.range n).flatMap (fun _ => l))[i * l.length + m]? = l[m]? := by
  induction n with
  | zero => omega
  | succ n ih =>
    rw [List.range_succ, List.flatMap_append]
    by_cases h : i < n
    · have hlt : i * l.length + m < ((List.range n).flatMap (fun _ => l)).length := by
        rw [flatMap_const_length]
        calc i * l.length + m < i * l.length + l.length := by omega
          _ = (i + 1) * l.length := by rw [Nat.succ_mul]
          _ ≤ n * l.length := Nat.mul_le_mul_right _ h
      rw [List.getElem?_append_left hlt]
      exact ih h
    · have hin : i = n := by omega
      subst hin
      have hle : ((List.range i).flatMap (fun _ => l)).length ≤ i * l.length + m := by
        rw [flatMap_const_length]
        omega
      rw [List.getElem?_append_right hle, flatMap_const_length]
      simp

theorem dds_mip_step_shape (D : DumpEnv) (image : Image) (st : List DxImage × Nat) (m : Nat) :
    (dds_mip_step D image st m).1.map DxImage.shape
      = st.1.map DxImage.shape
        ++ [(image.hdr.imageFormat, shr_int image.hdr.width m, shr_int image.hdr.height m)] := by
  simp [dds_mip_step, DxImage.shape]

theorem dds_face_step_shape (D : DumpEnv) (image : Image) (st : List DxImage × Nat) (f : Nat) :
    (dds_face_step D image st f).1.map DxImage.shape
      = st.1.map DxImage.shape
        ++ (List.range image.hdr.levelCount).map
            (fun m => (image.hdr.imageFormat, shr_int image.hdr.width m, shr_int image.hdr.height m)) := by
  unfold dds_face_step
  rw [foldl_range_out (dds_mip_step D image) (fun st => st.1.map DxImage.shape)
    (fun m => [(image.hdr.imageFormat, shr_int image.hdr.width m, shr_int image.hdr.height m)])
    (dds_mip_step_shape D image)]
  congr 1
  induction image.hdr.levelCount with
  | zero => simp
  | succ n ih => rw [List.range_succ, List.flatMap_append, List.map_append, ih]; simp

theorem dds_element_step_shape (D : DumpEnv) (image : Image) (sides : Nat)
    (st : List DxImage × Nat) (e : Nat) :
    (dds_element_step D image sides st e).1.map DxImage.shape
      = st.1.map DxImage.shape
        ++ (List.range sides).flatMap (fun _ => (List.range image.hdr.levelCount).map
            (fun m => (image.hdr.imageFormat, shr_int image.hdr.width m, shr_int image.hdr.height m))) := by
  unfold dds_element_step
  exact foldl_range_out (dds_face_step D image) (fun st => st.1.map DxImage.shape) _
    (dds_face_step_shape D image) sides st

theorem dump_image_dds_shapes (E : Env) (D : DumpEnv) (image : Image) :
    (dump_image_dds E D image).faces.map DxImage.shape
      = (List.range image.hdr.numElements).flatMap (fun _ =>
          (List.range (if image.hdr.mapType = E.MAPTYPE_CUBE then 6 else 1)).flatMap (fun _ =>
            (List.range image.hdr.levelCount).map (fun m =>
              (image.hdr.imageFormat, shr_int image.hdr.width m, shr_int image.hdr.height m)))) := by
  unfold dump_image_dds
  simp only []
  rw [foldl_range_out (dds_element_step D image _) (fun st => st.1.map DxImage.shape) _
    (dds_element_step_shape D image _)]
  simp

/-- Claim C23, amended: the face list that `dump_image_dds` hands to the encoder has
`numElements * sides * levelCount` entries, where `sides` is 6 when the map type is
`MAPTYPE_CUBE` and 1 otherwise; it is ordered by element, then face, then mip level,
so that the entry of element `e`, face `f` and mip level `m` sits at index
`(e * sides + f) * levelCount + m`; that entry has the image format and the width
and height shifted by `m` as the 32-bit shift of the target does it, which for
`m < 32` is `width >> m` and `height >> m` (no lower bound of 1); the metadata has
`arraySize = numElements * sides`, `mipLevels = levelCount` and the width, height
and depth of the image. -/
theorem dump_image_dds_faces (E : Env) (D : DumpEnv) (image : Image) :
    (dump_image_dds E D image).faces.length
        = image.hdr.numElements * (if image.hdr.mapType = E.MAPTYPE_CUBE then 6 else 1)
          * image.hdr.levelCount
      ∧ (dump_image_dds E D image).faces.map DxImage.shape
        = (List.range image.hdr.numElements).flatMap (fun _ =>
            (List.range (if image.hdr.mapType = E.MAPTYPE_CUBE then 6 else 1)).flatMap (fun _ =>
              (List.range image.hdr.levelCount).map (fun m =>
                (image.hdr.imageFormat, shr_int image.hdr.width m, shr_int image.hdr.height m))))
      ∧ (∀ e f m, e < image.hdr.numElements
          → f < (if image.hdr.mapType = E.MAPTYPE_CUBE then 6 else 1)
          → m < image.hdr.levelCount
          → ((dump_image_dds E D image).faces.map DxImage.shape)[
                (e * (if image.hdr.mapType = E.MAPTYPE_CUBE then 6 else 1) + f)
                  * image.hdr.levelCount + m]?
              = some (image.hdr.imageFormat, shr_int image.hdr.width m, shr_int image.hdr.height m)
            ∧ (m < 32 →
              ((dump_image_dds E D image).faces.map DxImage.shape)[
                  (e * (if image.hdr.mapType = E.MAPTYPE_CUBE then 6 else 1) + f)
                    * image.hdr.levelCount + m]?
                = some (image.hdr.imageFormat, image.hdr.width >>> m, image.hdr.height >>> m)))
      ∧ (dump_image_dds E D image).metadata.arraySize
        = image.hdr.numElements * (if image.hdr.mapType = E.MAPTYPE_CUBE then 6 else 1)
      ∧ (dump_image_dds E D image).metadata.mipLevels = image.hdr.levelCount
      ∧ (dump_image_dds E D image).metadata.width = image.hdr.width
      ∧ (dump_image_dds E D image).metadata.height = image.hdr.height
      ∧ (dump_image_dds E D image).metadata.depth = image.hdr.depth := by
  have hs := dump_image_dds_shapes E D image
  generalize hS : (if image.hdr.mapType = E.MAPTYPE_CUBE then 6 else 1) = S at hs ⊢
  generalize hg : (fun m => (image.hdr.imageFormat, shr_int image.hdr.width m,
    shr_int image.hdr.height m)) = g at hs ⊢
  have hmips : ((List.range image.hdr.levelCount).map g).length = image.hdr.levelCount := by simp
  have hblock : ((List.range S).flatMap (fun _ => (List.range image.hdr.levelCount).map g)).length
      = S * image.hdr.levelCount := by
    rw [flatMap_const_length, hmips]
  refine ⟨?_, hs, ?_, ?_, ?_, ?_, ?_, ?_⟩
  · have h := congrArg List.length hs
    rw [List.length_map, flatMap_const_length, hblock] at h
    rw [h, Nat.mul_assoc]
  · intro e f m he hf hm
    suffices hmain : ((dump_image_dds E D image).faces.map DxImage.shape)[
        (e * S + f) * image.hdr.levelCount + m]?
          = some (image.hdr.imageFormat, shr_int image.hdr.width m,
              shr_int image.hdr.height m) by
      refine ⟨hmain, fun h32 => ?_⟩
      rw [hmain]
      simp [shr_int, Nat.mod_eq_of_lt h32]
    rw [hs]
    have hidx : (e * S + f) * image.hdr.levelCount + m
        = e * ((List.range S).flatMap
            (fun _ => (List.range image.hdr.levelCount).map g)).length
          + (f * ((List.range image.hdr.levelCount).map g).length + m) := by
      rw [hblock, hmips, Nat.add_mul, Nat.mul_assoc, Nat.add_assoc]
    have hfm : f * ((List.range image.hdr.levelCount).map g).length + m
        < ((List.range S).flatMap (fun _ => (List.range image.hdr.levelCount).map g)).length := by
      rw [hblock, hmips]
      calc f * image.hdr.levelCount + m < f * image.hdr.levelCount + image.hdr.levelCount := by
            omega
        _ = (f + 1) * image.hdr.levelCount := by rw [Nat.succ_mul]
        _ ≤ S * image.hdr.levelCount := Nat.mul_le_mul_right _ hf
    rw [hidx, flatMap_const_getElem? _ _ e _ he hfm,
      flatMap_const_getElem? _ _ f m hf (by rw [hmips]; exact hm)]
    rw [List.getElem?_map, List.getElem?_range hm, ← hg]
    rfl
  · rw [← hS]; rfl
  · rfl
  · rfl
  · rfl
  · rfl

/-- Witness for C23: a cube map of 2 elements and 3 mip levels gives 36 faces, and
the face of element 1, face 4, mip level 2 sits at index 32 and is 2x1. -/
theorem dump_image_dds_faces_witness :
    (dump_image_dds envT dumpEnvShort imgCube).faces.length = 2 * 6 * 3
      ∧ ((dump_image_dds envT dumpEnvShort imgCube).faces.map DxImage.shape)[32]?
          = some (28, 8 >>> 2, 4 >>> 2)
      ∧ (dump_image_dds envT dumpEnvShort imgCube).metadata.arraySize = 12 :=
  ⟨(dump_image_dds_faces envT dumpEnvShort imgCube).1,
   ((dump_image_dds_faces envT dumpEnvShort imgCube).2.2.1 1 4 2 (by decide) (by decide)
     (by decide)).2 (by decide),
   (dump_image_dds_faces envT dumpEnvShort imgCube).2.2.2.1⟩

/-- C23 as stated fails from mip level 32 on.  For an 8x4 image with 33 mip levels
the face list has 33 entries and the entry of mip level 32 is 8x4 again, whereas
`8 >> 32` and `4 >> 32` are 0. -/
theorem dump_image_dds_level_32 :
    imgDeep.hdr.levelCount = 33 ∧
    (dump_image_dds envT dumpEnvShort imgDeep).faces.length = 33 ∧
    ((dump_image_dds envT dumpEnvShort imgDeep).faces.map DxImage.shape)[32]?
      = some (28, 8, 4) ∧
    imgDeep.hdr.width >>> 32 = 0 ∧ imgDeep.hdr.height >>> 32 = 0 := by
  refine ⟨rfl, ?_, ?_, by decide, by decide⟩
  · have h := congrArg List.length (dump_image_dds_shapes envT dumpEnvShort imgDeep)
    rw [List.length_map] at h
    rw [h]
    decide
  · rw [dump_image_dds_shapes]
    decide

/-! ## Flags of loaded images and conversion of external textures -/

theorem add_loaded_image_flags_flags (E : Env) (image : GfxImage) :
    (add_loaded_image_flags E image).flags
      = if image.levelCount ≤ 1 then image.flags ||| E.IMAGE_FLAG_NOMIPMAPS else image.flags := by
  unfold add_loaded_image_flags
  by_cases h1 : image.levelCount ≤ 1 <;>
    by_cases h2 : image.numElements > 1 ∧ image.mapType ≠ E.MAPTYPE_CUBE <;> simp [h1, h2]

theorem add_loaded_image_flags_mapType (E : Env) (image : GfxImage) :
    (add_loaded_image_flags E image).mapType
      = if image.numElements > 1 ∧ image.mapType ≠ E.MAPTYPE_CUBE then E.MAPTYPE_ARRAY
        else image.mapType := by
  unfold add_loaded_image_flags
  by_cases h1 : image.levelCount ≤ 1 <;>
    by_cases h2 : image.numElements > 1 ∧ image.mapType ≠ E.MAPTYPE_CUBE <;> simp [h1, h2]

theorem add_loaded_image_flags_rest (E : Env) (image : GfxImage) :
    add_loaded_image_flags E image
      = { image with
          flags := (add_loaded_image_flags E image).flags
          mapType := (add_loaded_image_flags E image).mapType } := by
  unfold add_loaded_image_flags
  by_cases h1 : image.levelCount ≤ 1 <;>
    by_cases h2 : image.numElements > 1 ∧ image.mapType ≠ E.MAPTYPE_CUBE <;> simp [h1, h2]

theorem directxtex_parse_eq (E : Env) (name : String) (mem : zone_memory) (scratch : ScratchImage)
    (h : directxtex.load_image E name = some scratch) :
    ∃ img mem', directxtex.parse E name mem = (some img, mem') ∧
      img.hdr = add_loaded_image_flags E
        (if scratch.isCubemap then
          { GfxImage.zero with
            imageFormat := scratch.format, mapType := E.MAPTYPE_CUBE,
            semantic := E.TS_COLOR_MAP, category := E.IMG_CATEGORY_LOAD_FROM_FILE,
            width := scratch.width % 2 ^ 16, height := scratch.height % 2 ^ 16,
            depth := scratch.depth % 2 ^ 16, numElements := 1,
            levelCount := scratch.mipLevels % 2 ^ 8, streamed := false,
            dataLen1 := toInt32 scratch.pixelsSize, dataLen2 := toInt32 scratch.pixelsSize,
            pixelData := ((mem.allocate E.sizeof_GfxImage).2.allocate scratch.pixelsSize).1,
            name := (((mem.allocate E.sizeof_GfxImage).2.allocate
              scratch.pixelsSize).2.duplicate_string name).1 }
        else
          { GfxImage.zero with
            imageFormat := scratch.format, mapType := scratch.dimension,
            semantic := E.TS_COLOR_MAP, category := E.IMG_CATEGORY_LOAD_FROM_FILE,
            width := scratch.width % 2 ^ 16, height := scratch.height % 2 ^ 16,
            depth := scratch.depth % 2 ^ 16, numElements := scratch.arraySize % 2 ^ 16,
            levelCount := scratch.mipLevels % 2 ^ 8, streamed := false,
            dataLen1 := toInt32 scratch.pixelsSize, dataLen2 := toInt32 scratch.pixelsSize,
            pixelData := ((mem.allocate E.sizeof_GfxImage).2.allocate scratch.pixelsSize).1,
            name := (((mem.allocate E.sizeof_GfxImage).2.allocate
              scratch.pixelsSize).2.duplicate_string name).1 }) := by
  unfold directxtex.parse
  rw [h]
  refine ⟨_, _, rfl, ?_⟩
  cases hc : scratch.isCubemap <;> simp

theorem toInt32_small (n : Nat) (h : n < 2 ^ 31) : toInt32 n = (n : Int) := by
  unfold toInt32
  have h1 : n % 2 ^ 32 = n := Nat.mod_eq_of_lt (by omega)
  rw [h1, if_pos h]

theorem add_loaded_image_flags_keeps (E : Env) (image : GfxImage) :
    (add_loaded_image_flags E image).dataLen1 = image.dataLen1
      ∧ (add_loaded_image_flags E image).dataLen2 = image.dataLen2
      ∧ (add_loaded_image_flags E image).streamed = image.streamed
      ∧ (add_loaded_image_flags E image).numElements = image.numElements := by
  unfold add_loaded_image_flags
  by_cases h1 : image.levelCount ≤ 1 <;>
    by_cases h2 : image.numElements > 1 ∧ image.mapType ≠ E.MAPTYPE_CUBE <;> simp [h1, h2]

/-- Claim C24, amended: when an external texture is found and decoded,
`directxtex::parse` returns an image with `streamed` false and with `dataLen1` and
`dataLen2` both equal to the decoded pixel-buffer size converted to a 32-bit signed
`int`, which is the size itself when the size is below `2^31`.  If the decoded
metadata is a cube map, the image has `mapType = MAPTYPE_CUBE` and `numElements = 1`
whatever the decoded array size is (so it is not `MAPTYPE_ARRAY`, the two constants
being distinct); if it is not a cube map, `numElements` is the array size truncated
to 16 bits and `mapType` is `MAPTYPE_ARRAY` when that truncated value is greater
than 1 and the decoded dimension is not `MAPTYPE_CUBE`, and the decoded dimension
otherwise; so, the decoded dimension of the texture library (1D, 2D or 3D) not
being the value `MAPTYPE_ARRAY`, `mapType` is `MAPTYPE_ARRAY` exactly when the
truncated array size is greater than 1 and the decoded dimension is not
`MAPTYPE_CUBE`. -/
theorem directxtex_parse_fields (E : Env) (name : String) (mem : zone_memory)
    (scratch : ScratchImage) (h : directxtex.load_image E name = some scratch) :
    ∃ img mem', directxtex.parse E name mem = (some img, mem') ∧
      img.hdr.streamed = false ∧
      img.hdr.dataLen1 = toInt32 scratch.pixelsSize ∧
      img.hdr.dataLen2 = toInt32 scratch.pixelsSize ∧
      (scratch.pixelsSize < 2 ^ 31 →
        img.hdr.dataLen1 = (scratch.pixelsSize : Int) ∧
        img.hdr.dataLen2 = (scratch.pixelsSize : Int)) ∧
      (scratch.isCubemap = true →
        img.hdr.mapType = E.MAPTYPE_CUBE ∧ img.hdr.numElements = 1 ∧
        (E.MAPTYPE_CUBE ≠ E.MAPTYPE_ARRAY → img.hdr.mapType ≠ E.MAPTYPE_ARRAY)) ∧
      (scratch.isCubemap = false →
        img.hdr.numElements = scratch.arraySize % 2 ^ 16 ∧
        (img.hdr.mapType =
          if scratch.arraySize % 2 ^ 16 > 1 ∧ scratch.dimension ≠ E.MAPTYPE_CUBE then
            E.MAPTYPE_ARRAY
          else scratch.dimension) ∧
        (scratch.dimension ≠ E.MAPTYPE_ARRAY →
          (img.hdr.mapType = E.MAPTYPE_ARRAY ↔
            (scratch.arraySize % 2 ^ 16 > 1 ∧ scratch.dimension ≠ E.MAPTYPE_CUBE)))) := by
  obtain ⟨img, mem', hp, hh⟩ := directxtex_parse_eq E name mem scratch h
  refine ⟨img, mem', hp, ?_⟩
  rw [hh]
  have hk := add_loaded_image_flags_keeps E
  have hm := add_loaded_image_flags_mapType E
  have h1 : ∀ i : GfxImage, i.dataLen1 = toInt32 scratch.pixelsSize →
      (add_loaded_image_flags E i).dataLen1 = toInt32 scratch.pixelsSize :=
    fun i hi => (hk i).1.trans hi
  have h2 : ∀ i : GfxImage, i.dataLen2 = toInt32 scratch.pixelsSize →
      (add_loaded_image_flags E i).dataLen2 = toInt32 scratch.pixelsSize :=
    fun i hi => (hk i).2.1.trans hi
  cases hc : scratch.isCubemap
  · simp only [Bool.false_eq_true, if_false]
    refine ⟨(hk _).2.2.1, h1 _ rfl, h2 _ rfl, ?_, ?_, ?_⟩
    · intro hs
      exact ⟨(h1 _ rfl).trans (toInt32_small _ hs), (h2 _ rfl).trans (toInt32_small _ hs)⟩
    · intro hf
      exact absurd hf (by simp)
    · intro _
      refine ⟨(hk _).2.2.2, hm _, fun hdim => ?_⟩
      rw [hm]
      by_cases hcond : scratch.arraySize % 2 ^ 16 > 1 ∧ scratch.dimension ≠ E.MAPTYPE_CUBE
      · simp only [if_pos hcond, true_iff]
        exact hcond
      · simp only [if_neg hcond]
        exact ⟨fun hd => absurd hd hdim, fun hc' => absurd hc' hcond⟩
  · simp only [if_true]
    refine ⟨(hk _).2.2.1, h1 _ rfl, h2 _ rfl, ?_, ?_, ?_⟩
    · intro hs
      exact ⟨(h1 _ rfl).trans (toInt32_small _ hs), (h2 _ rfl).trans (toInt32_small _ hs)⟩
    · intro _
      refine ⟨?_, (hk _).2.2.2, fun hne => ?_⟩
      · rw [hm]; simp
      · rw [hm]; simpa using hne
    · intro hf
      exact absurd hf (by simp)

/-- Witness for C24: a decoded two-element cube-map array stays a cube map with one
element, and a decoded three-slice 2D array becomes `MAPTYPE_ARRAY` with three
elements; both carry their pixel-buffer size and are not streamed. -/
theorem directxtex_parse_fields_witness :
    (directxtex.load_image envCube "sky" = some scratchCube ∧
      ∃ img mem', directxtex.parse envCube "sky" { next := 64 } = (some img, mem') ∧
        img.hdr.streamed = false ∧ img.hdr.dataLen1 = 3 ∧ img.hdr.dataLen2 = 3 ∧
        img.hdr.mapType = 5 ∧ img.hdr.numElements = 1) ∧
    (directxtex.load_image envArray "sky" = some scratchArray ∧
      ∃ img mem', directxtex.parse envArray "sky" { next := 64 } = (some img, mem') ∧
        img.hdr.streamed = false ∧ img.hdr.dataLen1 = 3 ∧ img.hdr.dataLen2 = 3 ∧
        img.hdr.mapType = 7 ∧ img.hdr.numElements = 3 ∧
        (img.hdr.mapType = envArray.MAPTYPE_ARRAY ↔
          (scratchArray.arraySize % 2 ^ 16 > 1 ∧
            scratchArray.dimension ≠ envArray.MAPTYPE_CUBE))) := by
  refine ⟨⟨rfl, ?_⟩, ⟨rfl, ?_⟩⟩
  · obtain ⟨img, mem', hp, hs, _, _, hd, hcube, _⟩ :=
      directxtex_parse_fields envCube "sky" { next := 64 } scratchCube rfl
    exact ⟨img, mem', hp, hs, (hd (by decide)).1, (hd (by decide)).2, (hcube rfl).1,
      (hcube rfl).2.1⟩
  · obtain ⟨img, mem', hp, hs, _, _, hd, _, hflat⟩ :=
      directxtex_parse_fields envArray "sky" { next := 64 } scratchArray rfl
    exact ⟨img, mem', hp, hs, (hd (by decide)).1, (hd (by decide)).2,
      (hflat rfl).2.1.trans (by decide), (hflat rfl).1, (hflat rfl).2.2 (by decide)⟩

/-- C24 evaluated on the code: for a decoded texture whose pixel buffer is `2^31`
bytes long, the image returned by `directxtex::parse` has
`dataLen1 = dataLen2 = -2147483648`, not the pixel-buffer size. -/
theorem directxtex_parse_dataLen_wraps :
    directxtex.load_image envHuge "sky" = some scratchHuge ∧
      scratchHuge.pixelsSize = 2147483648 ∧
      ∃ img mem', directxtex.parse envHuge "sky" { next := 64 } = (some img, mem') ∧
        img.hdr.dataLen1 = -2147483648 ∧ img.hdr.dataLen2 = -2147483648 ∧
        img.hdr.dataLen1 ≠ (scratchHuge.pixelsSize : Int) := by
  refine ⟨rfl, rfl, ?_⟩
  obtain ⟨img, mem', hp, hh⟩ := directxtex_parse_eq envHuge "sky" { next := 64 } scratchHuge rfl
  have hk := add_loaded_image_flags_keeps envHuge
  have ht : toInt32 scratchHuge.pixelsSize = -2147483648 := by decide
  refine ⟨img, mem', hp, ?_, ?_, ?_⟩
  · rw [hh, (hk _).1]; exact ht
  · rw [hh, (hk _).2.1]; exact ht
  · rw [hh, (hk _).1]
    show toInt32 scratchHuge.pixelsSize ≠ _
    rw [ht]
    decide

/-- Claim C25: `add_loaded_image_flags` sets `flags` to `flags | IMAGE_FLAG_NOMIPMAPS`
when `levelCount <= 1` and leaves it unchanged otherwise, so that no bit of `flags`
is cleared; it sets `mapType` to `MAPTYPE_ARRAY` when `numElements > 1` and
`mapType` is not `MAPTYPE_CUBE` and leaves it unchanged otherwise; it changes no
other field; and applying it twice gives the same image as applying it once. -/
theorem add_loaded_image_flags_spec (E : Env) (image : GfxImage) :
    (add_loaded_image_flags E image).flags
        = (if image.levelCount ≤ 1 then image.flags ||| E.IMAGE_FLAG_NOMIPMAPS
           else image.flags)
      ∧ (∀ k, image.flags.testBit k = true →
          (add_loaded_image_flags E image).flags.testBit k = true)
      ∧ (add_loaded_image_flags E image).mapType
        = (if image.numElements > 1 ∧ image.mapType ≠ E.MAPTYPE_CUBE then E.MAPTYPE_ARRAY
           else image.mapType)
      ∧ add_loaded_image_flags E image
        = { image with
            flags := (add_loaded_image_flags E image).flags
            mapType := (add_loaded_image_flags E image).mapType }
      ∧ add_loaded_image_flags E (add_loaded_image_flags E image)
        = add_loaded_image_flags E image := by
  refine ⟨add_loaded_image_flags_flags E image, ?_, add_loaded_image_flags_mapType E image,
    add_loaded_image_flags_rest E image, ?_⟩
  · intro k hk
    rw [add_loaded_image_flags_flags]
    split
    · rw [Nat.testBit_lor, hk]; rfl
    · exact hk
  · unfold add_loaded_image_flags
    by_cases h1 : image.levelCount ≤ 1 <;>
      by_cases h2 : image.numElements > 1 ∧ image.mapType ≠ E.MAPTYPE_CUBE <;>
      by_cases h3 : E.MAPTYPE_ARRAY = E.MAPTYPE_CUBE <;>
      simp [h1, h2, h3, Nat.lor_assoc]

/-- Witness for C25: an image with one mip level, three elements and map type 3
whose flag bit 0 is set gets flags `1 | 2 = 3` (bit 0 still set) and map type
`MAPTYPE_ARRAY`. -/
theorem add_loaded_image_flags_spec_witness :
    (add_loaded_image_flags envT
        { GfxImage.zero with flags := 1, mapType := 3, numElements := 3, levelCount := 1 }).flags
        = 3
      ∧ (add_loaded_image_flags envT
        { GfxImage.zero with flags := 1, mapType := 3, numElements := 3,
                             levelCount := 1 }).flags.testBit 0 = true
      ∧ (add_loaded_image_flags envT
        { GfxImage.zero with flags := 1, mapType := 3, numElements := 3,
                             levelCount := 1 }).mapType = 7 :=
  ⟨(add_loaded_image_flags_spec envT _).1,
   (add_loaded_image_flags_spec envT _).2.1 0 (by decide),
   (add_loaded_image_flags_spec envT _).2.2.1⟩

/-- Claim C26: `clean_name s` has the length of `s`; at every position it has the
character of `s`, except that a star is replaced by an underscore; it contains no
star; it equals `s` when `s` contains no star; and `clean_name` is idempotent. -/
theorem clean_name_spec (s : String) :
    (clean_name s).length = s.length
      ∧ (∀ i : Nat,
          (clean_name s).data[i]? = (s.data[i]?).map (fun c => if c = '*' then '_' else c))
      ∧ '*' ∉ (clean_name s).data
      ∧ ('*' ∉ s.data → clean_name s = s)
      ∧ clean_name (clean_name s) = clean_name s := by
  have hstar : '*' ∉ (clean_name s).data := by
    intro hmem
    have hmem' : '*' ∈ s.data.map (fun c => if c = '*' then '_' else c) := hmem
    rw [List.mem_map] at hmem'
    obtain ⟨c, _, hc⟩ := hmem'
    by_cases h : c = '*'
    · rw [if_pos h] at hc
      exact absurd hc (by decide)
    · rw [if_neg h] at hc
      exact h hc
  have hid : ∀ t : String, '*' ∉ t.data → clean_name t = t := by
    intro t ht
    apply String.ext
    show t.data.map (fun c => if c = '*' then '_' else c) = t.data
    conv_rhs => rw [← List.map_id t.data]
    apply List.map_congr_left
    intro c hc
    have hne : c ≠ '*' := fun hcs => ht (hcs ▸ hc)
    simp [hne]
  refine ⟨?_, ?_, hstar, hid s, hid _ hstar⟩
  · show (s.data.map _).length = s.data.length
    rw [List.length_map]
  · intro i
    show (s.data.map _)[i]? = _
    rw [List.getElem?_map]

/-- Witness for C26: `*light*` becomes `_light_`, and `sky`, which has no star, is
returned as it is. -/
theorem clean_name_spec_witness :
    clean_name "*light*" = "_light_" ∧ clean_name "sky" = "sky" :=
  ⟨by decide, (clean_name_spec "sky").2.2.2.1 (by decide)⟩

end zonetool.h1
